import Mathlib

/-
Verification of the low-level keyboard hook in Source/hook_include.cpp
(keyboard branch, i.e. the INCLUDE_KEYBD_HOOK text).

The hook's global state (modifier masks, physical key table, the prior-event
record used by the driver shift-key workaround, the prefix-key slot, the
per-key runtime flags, the disguise flags and the alt-tab flag) is collected
in a single `HookState` record; every C function that mutates globals becomes
a Lean function from `HookState` to `HookState`.  `KeyEvent` emissions and
`PostMessage` hotkey posts are recorded in output lists carried by the state.
All numeric constants (virtual keys, scan codes, modifier bits) carry the
values of the Windows headers; 32-bit tick arithmetic is modelled explicitly
with `% 2^32`.
-/

namespace AhkHook

set_option maxHeartbeats 1000000
set_option maxRecDepth 2048

/-! ## Constants -/

def VK_TAB : Nat := 9
def VK_CLEAR : Nat := 12
def VK_SHIFT : Nat := 16
def VK_CONTROL : Nat := 17
def VK_MENU : Nat := 18
def VK_CAPITAL : Nat := 20
def VK_PRIOR : Nat := 33
def VK_NEXT : Nat := 34
def VK_END : Nat := 35
def VK_HOME : Nat := 36
def VK_LEFT : Nat := 37
def VK_UP : Nat := 38
def VK_RIGHT : Nat := 39
def VK_DOWN : Nat := 40
def VK_INSERT : Nat := 45
def VK_DELETE : Nat := 46
def VK_L : Nat := 76
def VK_LWIN : Nat := 91
def VK_RWIN : Nat := 92
def VK_NUMPAD0 : Nat := 96
def VK_NUMPAD1 : Nat := 97
def VK_NUMPAD2 : Nat := 98
def VK_NUMPAD3 : Nat := 99
def VK_NUMPAD4 : Nat := 100
def VK_NUMPAD5 : Nat := 101
def VK_NUMPAD6 : Nat := 102
def VK_NUMPAD7 : Nat := 103
def VK_NUMPAD8 : Nat := 104
def VK_NUMPAD9 : Nat := 105
def VK_DECIMAL : Nat := 110
def VK_NUMLOCK : Nat := 144
def VK_LSHIFT : Nat := 160
def VK_RSHIFT : Nat := 161
def VK_LCONTROL : Nat := 162
def VK_RCONTROL : Nat := 163
def VK_LMENU : Nat := 164
def VK_RMENU : Nat := 165

def SC_RSHIFT : Nat := 54
def SC_RCONTROL : Nat := 285
def SC_RALT : Nat := 312

/-- Modelled from the spec: the left/right discriminated modifier mask has one
bit per LSHIFT/RSHIFT/LCTRL/RCTRL/LALT/RALT/LWIN/RWIN; the exact bit values
live in a header outside this repository snippet, only their distinctness is
used. -/
def MOD_LSHIFT : Nat := 1
def MOD_RSHIFT : Nat := 2
def MOD_LCONTROL : Nat := 4
def MOD_RCONTROL : Nat := 8
def MOD_LALT : Nat := 16
def MOD_RALT : Nat := 32
def MOD_LWIN : Nat := 64
def MOD_RWIN : Nat := 128

def PAD_DECIMAL : Nat := 0
def PAD_NUMPAD0 : Nat := 1
def PAD_NUMPAD1 : Nat := 2
def PAD_NUMPAD2 : Nat := 3
def PAD_NUMPAD3 : Nat := 4
def PAD_NUMPAD4 : Nat := 5
def PAD_NUMPAD5 : Nat := 6
def PAD_NUMPAD6 : Nat := 7
def PAD_NUMPAD7 : Nat := 8
def PAD_NUMPAD8 : Nat := 9
def PAD_NUMPAD9 : Nat := 10
def PAD_TOTAL_COUNT : Nat := 11

def SHIFT_KEY_WORKAROUND_TIMEOUT : Nat := 22

def AS_PREFIX : Nat := 1
def AS_PREFIX_FOR_HOTKEY : Nat := 2

/-- Modelled from the spec: the hotkey-id sentinels live in a header outside
this repository snippet; per the spec the stored id packs a NO_SUPPRESS flag
in its top bit, and the alt-tab family are distinguished reserved ids just
below HOTKEY_ID_INVALID.  Only distinctness and the bit layout are used. -/
def HOTKEY_NO_SUPPRESS : Nat := 32768
def HOTKEY_ID_MASK : Nat := 32767
def HOTKEY_ID_INVALID : Nat := 32767
def HOTKEY_ID_ALT_TAB : Nat := 32762
def HOTKEY_ID_ALT_TAB_SHIFT : Nat := 32763
def HOTKEY_ID_ALT_TAB_MENU : Nat := 32764
def HOTKEY_ID_ALT_TAB_AND_MENU : Nat := 32765
def HOTKEY_ID_ALT_TAB_MENU_DISMISS : Nat := 32766

/-- 32-bit wrap-around difference `(DWORD)(now - prior)` used by the 22 ms
checks, for tick values already reduced or not (extra multiples of 2^32 in
`now` do not change the result). -/
def tickDiff (now prior : Nat) : Nat :=
  (now + (4294967296 - prior % 4294967296)) % 4294967296

/-- `m & ~mask` for single- or multi-bit masks: removes the bits of `mask`
from `m`. -/
def clearBits (m mask : Nat) : Nat :=
  m - (m &&& mask)

/-! ## Data model -/

/-- Force-toggle target values (`*pForceToggle`); the hook only distinguishes
NEUTRAL from the rest. -/
inductive ToggleVal where
  | neutral
  | alwaysOn
  | alwaysOff
deriving DecidableEq, Repr

inductive Verdict where
  | pass
  | suppress
deriving DecidableEq, Repr

inductive EmitKind where
  | keyDown
  | keyUp
  | keyDownAndUp
deriving DecidableEq, Repr

/-- One `KeyEvent(...)` emission.  Modelled from the spec: `KeyEvent` itself
is defined outside this repository snippet; per the spec every engine
emission carries the "ignore" sentinel in its extra-info field, recorded here
as `ignoreTag`. -/
structure Emission where
  kind : EmitKind
  vk : Nat
  sc : Nat
  ignoreTag : Bool
deriving DecidableEq, Repr

/-- KeyHistory event_type tags: ' ' (blank), 's' (suppressed), 'i' (ignored),
'h' (hook hotkey). -/
inductive EvType where
  | blank
  | sup
  | ign
  | hot
deriving DecidableEq, Repr

/-- A pointer into `kvk` or `ksc` (pThisKey / pPrefixKey). -/
inductive KeyRef where
  | vk (v : Nat)
  | sc (c : Nat)
deriving DecidableEq, Repr

/-- Immutable per-key configuration (key_type's configuration fields). -/
structure KeyCfg where
  usedAsPrefixKey : Bool
  usedAsSuffix : Bool
  asModifiersLR : Nat
  pForceToggle : Option Nat
  modifierVK : List (Nat × Nat)
  modifierSC : List (Nat × Nat)
  scTakesPrecedence : Bool
deriving Repr

/-- Mutable per-key runtime flags (key_type's runtime fields). -/
structure KeyRt where
  isDown : Bool
  downPerformedAction : Bool
  wasJustUsed : Nat
  itPutAltDown : Bool
  itPutShiftDown : Bool
deriving DecidableEq, Repr

/-- Engine-wide configuration: the lookup tables built by the external
hotkey compiler, the toggle variables pointed to by pForceToggle, the
VK-to-scan-code mapping and the OS version gates. -/
structure Cfg where
  kvkCfg : Nat → KeyCfg
  kscCfg : Nat → KeyCfg
  toggles : Nat → ToggleVal
  KvkmTable : Nat → Nat → Nat
  KscmTable : Nat → Nat → Nat
  vkToSc : Nat → Nat
  isWinXPorLater : Bool
  isWin2000 : Bool
  isWinNT4 : Bool

/-- One raw keyboard event as delivered to LowLevelKeybdProc with
code == HC_ACTION.  `ignored` is `dwExtraInfo == KEYIGNORE`; `numlockOn` is
the ambient `IsKeyToggledOn(VK_NUMLOCK)`; `tick` is `GetTickCount()` during
this event's processing and `time` is the event's own timestamp. -/
structure Event where
  vk : Nat
  scan : Nat
  keyUp : Bool
  injected : Bool
  extended : Bool
  ignored : Bool
  time : Nat
  tick : Nat
  numlockOn : Bool
deriving Repr

/-- All hook globals, plus the outbound emission/post streams. -/
structure HookState where
  logical : Nat
  physical : Nat
  physKeys : Nat → Bool
  padState : Nat → Bool
  nextPhantom : Bool
  priorVk : Nat
  priorSc : Nat
  priorKeyUp : Bool
  priorPhysical : Bool
  priorTick : Nat
  priorModsPhys : Nat
  priorShiftState : Bool
  priorLShiftState : Bool
  pPrefixKey : Option KeyRef
  kvkRt : Nat → KeyRt
  kscRt : Nat → KeyRt
  dgLwin : Bool
  dgRwin : Bool
  dgLalt : Bool
  dgRalt : Bool
  altTabMenuVisible : Bool
  timeLastPhysical : Nat
  emissions : List Emission
  posts : List Nat

def keyCfgOf (cfg : Cfg) : KeyRef → KeyCfg
  | KeyRef.vk v => cfg.kvkCfg v
  | KeyRef.sc c => cfg.kscCfg c

def keyRtOf (s : HookState) : KeyRef → KeyRt
  | KeyRef.vk v => s.kvkRt v
  | KeyRef.sc c => s.kscRt c

def setKeyRt (s : HookState) (r : KeyRef) (f : KeyRt → KeyRt) : HookState :=
  match r with
  | KeyRef.vk v => { s with kvkRt := Function.update s.kvkRt v (f (s.kvkRt v)) }
  | KeyRef.sc c => { s with kscRt := Function.update s.kscRt c (f (s.kscRt c)) }

def setPhysKey (s : HookState) (v : Nat) (b : Bool) : HookState :=
  { s with physKeys := Function.update s.physKeys v b }

def setPad (s : HookState) (i : Nat) (b : Bool) : HookState :=
  { s with padState := Function.update s.padState i b }

/-- Is the force-toggle of this key record present and currently NEUTRAL
(`pForceToggle != NULL && *pForceToggle == NEUTRAL`)? -/
def toggleIsNeutral (cfg : Cfg) (k : KeyCfg) : Bool :=
  match k.pForceToggle with
  | some t => cfg.toggles t == ToggleVal.neutral
  | none => false

/-- Is the force-toggle present and currently NOT NEUTRAL (the AllowIt
suppression test `pForceToggle != NULL && *pForceToggle != NEUTRAL`)? -/
def toggleBlocks (cfg : Cfg) (k : KeyCfg) : Bool :=
  match k.pForceToggle with
  | some t => !(cfg.toggles t == ToggleVal.neutral)
  | none => false

/-! ## EventClassifier -/

/-- `DualStateNumpadKeyIsDown()`: any bit set in pad_state. -/
def DualStateNumpadKeyIsDown (s : HookState) : Bool :=
  (List.range PAD_TOTAL_COUNT).any (fun i => s.padState i)

/-- `IsDualStateNumpadKey(vk, sc)`. -/
def IsDualStateNumpadKey (vk sc : Nat) : Bool :=
  if sc &&& 256 != 0 then false
  else
    vk == VK_DELETE || vk == VK_INSERT || vk == VK_END || vk == VK_DOWN ||
    vk == VK_NEXT || vk == VK_LEFT || vk == VK_CLEAR || vk == VK_RIGHT ||
    vk == VK_HOME || vk == VK_UP || vk == VK_PRIOR

/-- `EventIsPhysical` (keyboard hook variant).  Returns the classification
together with the successor state, because the function consumes the
`next_phys_shift_down_is_not_phys` flag and updates
`g_TimeLastInputPhysical`. -/
def EventIsPhysical (s : HookState) (e : Event) : Bool × HookState :=
  if e.injected then (false, s)
  else if (e.vk == VK_LSHIFT || e.vk == VK_SHIFT) && !e.keyUp then
    if s.nextPhantom && !DualStateNumpadKeyIsDown s then
      (false, { s with nextPhantom := false })
    else if s.priorKeyUp && IsDualStateNumpadKey s.priorVk s.priorSc &&
        tickDiff e.tick s.priorTick < SHIFT_KEY_WORKAROUND_TIMEOUT then
      (false, s)
    else (true, { s with timeLastPhysical := e.time })
  else (true, { s with timeLastPhysical := e.time })

/-! ## ModifierTracker -/

/-- One branch of the UpdateModifierState switch: for the modifier bit `bit`
whose side-specific key is `side` and whose opposite-side key is `otherSide`,
update `g_modifiersLR_logical` (unless suppressed), then—if the event is
physical—`g_modifiersLR_physical`, the side's entry of g_PhysicalKeyState and
(when the pair has one) the derived `neutral` entry. -/
def applyModBranch (s : HookState) (e : Event) (suppressed : Bool)
    (bit side otherSide : Nat) (neutral : Option Nat) : HookState :=
  if e.keyUp then
    let s1 := if suppressed then s else { s with logical := clearBits s.logical bit }
    let r := EventIsPhysical s1 e
    if r.1 then
      let s2 := { r.2 with physical := clearBits r.2.physical bit }
      let s3 := setPhysKey s2 side false
      match neutral with
      | some n => setPhysKey s3 n (s3.physKeys otherSide)
      | none => s3
    else r.2
  else
    let s1 := if suppressed then s else { s with logical := s.logical ||| bit }
    let r := EventIsPhysical s1 e
    if r.1 then
      let s2 := { r.2 with physical := r.2.physical ||| bit }
      let s3 := setPhysKey s2 side true
      match neutral with
      | some n => setPhysKey s3 n true
      | none => s3
    else r.2

/-- The branch selected by the UpdateModifierState switch on pEvent->vkCode:
the modifier bit, the side-specific key, the opposite-side key and the
derived neutral key (none for the WIN pair and for non-modifier VKs);
neutral VKs route by scan code (SC_RSHIFT/SC_RCONTROL/SC_RALT to the right
side, anything else to the left). -/
def modBranchParams (vk sc : Nat) : Option (Nat × Nat × Nat × Option Nat) :=
  if vk == VK_LSHIFT then some (MOD_LSHIFT, VK_LSHIFT, VK_RSHIFT, some VK_SHIFT)
  else if vk == VK_RSHIFT then some (MOD_RSHIFT, VK_RSHIFT, VK_LSHIFT, some VK_SHIFT)
  else if vk == VK_LCONTROL then some (MOD_LCONTROL, VK_LCONTROL, VK_RCONTROL, some VK_CONTROL)
  else if vk == VK_RCONTROL then some (MOD_RCONTROL, VK_RCONTROL, VK_LCONTROL, some VK_CONTROL)
  else if vk == VK_LMENU then some (MOD_LALT, VK_LMENU, VK_RMENU, some VK_MENU)
  else if vk == VK_RMENU then some (MOD_RALT, VK_RMENU, VK_LMENU, some VK_MENU)
  else if vk == VK_LWIN then some (MOD_LWIN, VK_LWIN, VK_LWIN, none)
  else if vk == VK_RWIN then some (MOD_RWIN, VK_RWIN, VK_RWIN, none)
  else if vk == VK_SHIFT then
    if sc == SC_RSHIFT then some (MOD_RSHIFT, VK_RSHIFT, VK_LSHIFT, some VK_SHIFT)
    else some (MOD_LSHIFT, VK_LSHIFT, VK_RSHIFT, some VK_SHIFT)
  else if vk == VK_CONTROL then
    if sc == SC_RCONTROL then some (MOD_RCONTROL, VK_RCONTROL, VK_LCONTROL, some VK_CONTROL)
    else some (MOD_LCONTROL, VK_LCONTROL, VK_RCONTROL, some VK_CONTROL)
  else if vk == VK_MENU then
    if sc == SC_RALT then some (MOD_RALT, VK_RMENU, VK_LMENU, some VK_MENU)
    else some (MOD_LALT, VK_LMENU, VK_RMENU, some VK_MENU)
  else none

/-- `UpdateModifierState(lParam, sc, key_up, aIsSuppressed)`: the switch on
pEvent->vkCode, with each case an applyModBranch instance; VKs outside the
switch leave the state alone. -/
def UpdateModifierState (s : HookState) (e : Event) (sc : Nat)
    (suppressed : Bool) : HookState :=
  match modBranchParams e.vk sc with
  | some (bit, side, otherSide, neutral) =>
    applyModBranch s e suppressed bit side otherSide neutral
  | none => s

/-- `UpdateKeyState(lParam, sc, key_up, aIsSuppressed)`: the driver
shift-workaround snapshot restore, the snapshot of the pre-event physical
shift state, the modifier update (for keys the configuration marks as
modifiers), and finally the prior-event record update (whose
`prior_event_was_physical` is a second, flag-consuming call to
EventIsPhysical). -/
def UpdateKeyState (cfg : Cfg) (s : HookState) (sc : Nat) (e : Event)
    (suppressed : Bool) : HookState :=
  let s1 :=
    if s.priorPhysical && (s.priorVk == VK_LSHIFT || s.priorVk == VK_SHIFT) &&
        tickDiff e.tick s.priorTick < SHIFT_KEY_WORKAROUND_TIMEOUT then
      let currentDual := IsDualStateNumpadKey e.vk sc
      let fixIt := (!s.priorKeyUp && DualStateNumpadKeyIsDown s) ||
        (s.priorKeyUp && e.keyUp && currentDual)
      let sA := if fixIt then { s with nextPhantom := true } else s
      if fixIt || (s.priorKeyUp && currentDual) then
        setPhysKey (setPhysKey { sA with physical := sA.priorModsPhys }
          VK_SHIFT sA.priorShiftState) VK_LSHIFT sA.priorLShiftState
      else sA
    else s
  let s2 := { s1 with priorModsPhys := s1.physical,
                      priorShiftState := s1.physKeys VK_SHIFT,
                      priorLShiftState := s1.physKeys VK_LSHIFT }
  let s3 := if (cfg.kvkCfg e.vk).asModifiersLR != 0 then
      UpdateModifierState s2 e sc suppressed
    else s2
  let r := EventIsPhysical s3 e
  { r.2 with priorVk := e.vk, priorSc := sc, priorKeyUp := e.keyUp,
             priorPhysical := r.1, priorTick := e.tick }

/-! ## Synthesizer and verdict helpers -/

/-- `KeyEvent(kind, vk, sc)`: record an engine emission.  Modelled from the
spec: the function body is outside this repository snippet; per the spec
(§6) every emission carries the "ignore" sentinel in extra_info. -/
def KeyEvent (s : HookState) (kind : EmitKind) (vk sc : Nat) : HookState :=
  { s with emissions := s.emissions ++ [{ kind := kind, vk := vk, sc := sc, ignoreTag := true }] }

/-- Conditional emission: `if (cond) KeyEvent(...)`. -/
def keyEventIf (c : Bool) (s : HookState) (kind : EmitKind) (vk sc : Nat) :
    HookState :=
  if c then KeyEvent s kind vk sc else s

/-- Conditional runtime-flag update. -/
def setKeyRtIf (c : Bool) (s : HookState) (r : KeyRef) (f : KeyRt → KeyRt) :
    HookState :=
  if c then setKeyRt s r f else s

/-- `SuppressThisKeyFunc(lParam, sc, key_up, pKeyHistoryCurr)`: the Numlock
LED restoration quad (for a non-ignored NUMLOCK key-down) followed by
`UpdateKeyState(..., true)`; always returns 1 (suppress). -/
def SuppressThisKeyFunc (cfg : Cfg) (s : HookState) (sc : Nat) (e : Event) :
    HookState × Verdict :=
  let s1 :=
    if e.vk == VK_NUMLOCK && !e.keyUp && !e.ignored then
      KeyEvent (KeyEvent (KeyEvent (KeyEvent s EmitKind.keyUp VK_NUMLOCK 0)
        EmitKind.keyDown VK_NUMLOCK 0) EmitKind.keyUp VK_NUMLOCK 0)
        EmitKind.keyDown VK_NUMLOCK 0
    else s
  (UpdateKeyState cfg s1 sc e true, Verdict.suppress)

/-- The Win-L lock-screen reset in AllowIt: when 'L' goes down while logical
mods equal exactly LWIN, RWIN or (in the source's own expression)
`MOD_RWIN | MOD_RWIN` on XP or later, zero both modifier masks and the
'L'/LWIN/RWIN physical entries. -/
def winLReset (cfg : Cfg) (s : HookState) (e : Event) : HookState :=
  if e.vk == VK_L && !e.keyUp &&
      (s.logical == MOD_LWIN || s.logical == MOD_RWIN ||
       s.logical == (MOD_RWIN ||| MOD_RWIN)) && cfg.isWinXPorLater then
    setPhysKey (setPhysKey (setPhysKey { s with logical := 0, physical := 0 }
      e.vk false) VK_LWIN false) VK_RWIN false
  else s

/-- The Ctrl-Alt-Del(-elete) reset in AllowIt: on Win2000/NT4, when either
delete key goes down while CTRL and ALT are physically held and SHIFT is
not, zero both masks and the delete/LCTRL/RCTRL/LALT/RALT physical
entries. -/
def cadReset (cfg : Cfg) (s : HookState) (e : Event) : HookState :=
  if (e.vk == VK_DELETE || e.vk == VK_DECIMAL) && !e.keyUp &&
      (s.physical &&& (MOD_LCONTROL ||| MOD_RCONTROL)) != 0 &&
      (s.physical &&& (MOD_LALT ||| MOD_RALT)) != 0 &&
      (s.physical &&& (MOD_LSHIFT ||| MOD_RSHIFT)) == 0 &&
      (cfg.isWin2000 || cfg.isWinNT4) then
    setPhysKey (setPhysKey (setPhysKey (setPhysKey (setPhysKey
      { s with logical := 0, physical := 0 }
      e.vk false) VK_LCONTROL false) VK_RCONTROL false)
      VK_LMENU false) VK_RMENU false
  else s

/-- AllowIt's reset of alt_tab_menu_is_visible when an ALT key releases while
the menu is believed visible (and this event is not itself a hook hotkey or
suppressed in the history). -/
def altTabClearOnAltUp (s : HookState) (e : Event) (et : EvType) : HookState :=
  if s.altTabMenuVisible &&
      (e.vk == VK_MENU || e.vk == VK_LMENU || e.vk == VK_RMENU) &&
      e.keyUp && !(et == EvType.hot) && !(et == EvType.sup) then
    { s with altTabMenuVisible := false }
  else s

/-- `AllowIt(...)` (keyboard hook variant): force-toggle suppression for
non-ignored events, `UpdateKeyState(..., false)`, the Win-L and
Ctrl-Alt-Del(-elete) lock-screen resets, the alt-tab-visible reset on an ALT
key-up, and the DisguiseWinAlt substitution. -/
def AllowIt (cfg : Cfg) (s : HookState) (sc : Nat) (e : Event) (et : EvType)
    (disguiseWinAlt : Bool) : HookState × Verdict :=
  if !e.ignored && toggleBlocks cfg (cfg.kvkCfg e.vk) then
    SuppressThisKeyFunc cfg s sc e
  else
    let s3 := cadReset cfg (winLReset cfg (UpdateKeyState cfg s sc e false) e) e
    if (cfg.kvkCfg e.vk).asModifiersLR == 0 then (s3, Verdict.pass)
    else
      let s4 := altTabClearOnAltUp s3 e et
      if disguiseWinAlt && e.keyUp &&
          (e.vk == VK_LWIN || e.vk == VK_RWIN || e.vk == VK_LMENU ||
           e.vk == VK_RMENU || e.vk == VK_MENU) then
        let s5 := KeyEvent s4 EmitKind.keyDown VK_SHIFT 0
        let s6 := KeyEvent s5 (if e.keyUp then EmitKind.keyUp else EmitKind.keyDown) e.vk sc
        let s7 := KeyEvent s6 EmitKind.keyUp VK_SHIFT 0
        (s7, Verdict.suppress)
      else (s4, Verdict.pass)

/-! ## Dispatcher (LowLevelKeybdProc), split into its stages -/

/-- Scan-code normalization at the top of LowLevelKeybdProc: fill a zero scan
code from the VK-to-scan map, truncate to 8 bits, OR in 0x100 when the event
is extended. -/
def scNormalize (cfg : Cfg) (e : Event) : Nat :=
  let sc0 := if e.vk != 0 && e.scan == 0 then cfg.vkToSc e.vk else e.scan
  let sc1 := sc0 &&& 255
  if e.extended then sc1 ||| 256 else sc1

/-- pThisKey selection: the scan-code record wins iff its
sc_takes_precedence flag is set, else the virtual-key record. -/
def hookThisKey (cfg : Cfg) (sc vk : Nat) : KeyRef :=
  if (cfg.kscCfg sc).scTakesPrecedence then KeyRef.sc sc else KeyRef.vk vk

/-- Which pad_state slot a virtual key belongs to (both the dual-state VK
and its numlock-on numpad VK map to the same slot). -/
def padIndexOf (vk : Nat) : Option Nat :=
  if vk == VK_DELETE || vk == VK_DECIMAL then some PAD_DECIMAL
  else if vk == VK_INSERT || vk == VK_NUMPAD0 then some PAD_NUMPAD0
  else if vk == VK_END || vk == VK_NUMPAD1 then some PAD_NUMPAD1
  else if vk == VK_DOWN || vk == VK_NUMPAD2 then some PAD_NUMPAD2
  else if vk == VK_NEXT || vk == VK_NUMPAD3 then some PAD_NUMPAD3
  else if vk == VK_LEFT || vk == VK_NUMPAD4 then some PAD_NUMPAD4
  else if vk == VK_CLEAR || vk == VK_NUMPAD5 then some PAD_NUMPAD5
  else if vk == VK_RIGHT || vk == VK_NUMPAD6 then some PAD_NUMPAD6
  else if vk == VK_HOME || vk == VK_NUMPAD7 then some PAD_NUMPAD7
  else if vk == VK_UP || vk == VK_NUMPAD8 then some PAD_NUMPAD8
  else if vk == VK_PRIOR || vk == VK_NUMPAD9 then some PAD_NUMPAD9
  else none

/-- The pad_state update (dual-state numpad bookkeeping): only for
non-extended scan codes while Numlock is toggled on. -/
def padStateStep (s : HookState) (e : Event) (sc : Nat) : HookState :=
  if sc &&& 256 == 0 && e.numlockOn then
    match padIndexOf e.vk with
    | some i => setPad s i (!e.keyUp)
    | none => s
  else s

/-- The alt-tab menu visibility heuristic: a TAB key-down while the flag is
not yet set, at least one ALT bit is in logical_mods and no CTRL bit is
set, marks the menu visible. -/
def altTabVisibleStep (s : HookState) (e : Event) : HookState :=
  if e.vk == VK_TAB && !e.keyUp && !s.altTabMenuVisible &&
      ((s.logical &&& MOD_LALT) != 0 || (s.logical &&& MOD_RALT) != 0) &&
      (s.logical &&& MOD_LCONTROL) == 0 && (s.logical &&& MOD_RCONTROL) == 0 then
    { s with altTabMenuVisible := true }
  else s

/-- Physical key-state tracking for non-modifier keys (modifiers are handled
by UpdateModifierState instead). -/
def physKeyStep (cfg : Cfg) (s : HookState) (e : Event) : HookState :=
  if (cfg.kvkCfg e.vk).asModifiersLR == 0 then
    let r := EventIsPhysical s e
    if r.1 then setPhysKey r.2 e.vk (!e.keyUp) else r.2
  else s

/-- First-match scan of a ModifierVK list against the kvk runtime table. -/
def findVkMod (s : HookState) : List (Nat × Nat) → Option (Nat × Nat)
  | [] => none
  | (w, idf) :: rest => if (s.kvkRt w).isDown then some (w, idf) else findVkMod s rest

/-- First-match scan of a ModifierSC list against the ksc runtime table. -/
def findScMod (s : HookState) : List (Nat × Nat) → Option (Nat × Nat)
  | [] => none
  | (c, idf) :: rest => if (s.kscRt c).isDown then some (c, idf) else findScMod s rest

/-- Case 4, no hotkey found: a key-up allows modifiers and NEUTRAL-mode
toggleable keys through and suppresses the rest; a key-down passes
through. -/
def noHotkeyExit (cfg : Cfg) (s : HookState) (sc : Nat) (e : Event)
    (et : EvType) (tk : KeyRef) : HookState × Verdict :=
  if e.keyUp then
    if (keyCfgOf cfg tk).asModifiersLR != 0 || toggleIsNeutral cfg (keyCfgOf cfg tk) then
      AllowIt cfg s sc e et false
    else SuppressThisKeyFunc cfg s sc e
  else AllowIt cfg s sc e et false

/-- Lines 1818-1819: flag the currently-bound prefix record (when any) as
AS_PREFIX_FOR_HOTKEY. -/
def markPrefixUsedForHotkey (s : HookState) : HookState :=
  match s.pPrefixKey with
  | some p => setKeyRt s p (fun r => { r with wasJustUsed := AS_PREFIX_FOR_HOTKEY })
  | none => s

/-- The tail of Case 4 after the hotkey switch: toggle-key cleanup for a
prefix toggle key fired on key-up, the modifier key-up disguise return, the
no-suppress compensating emissions, and the final suppress. -/
def afterSwitch (cfg : Cfg) (s : HookState) (sc : Nat) (e : Event)
    (tk : KeyRef) (noSuppress : Bool) : HookState × Verdict :=
  if toggleIsNeutral cfg (keyCfgOf cfg tk) && (keyCfgOf cfg tk).usedAsPrefixKey &&
      e.keyUp then
    let s1 := KeyEvent (KeyEvent (KeyEvent s EmitKind.keyUp e.vk sc)
      EmitKind.keyDown e.vk sc) EmitKind.keyUp e.vk sc
    SuppressThisKeyFunc cfg s1 sc e
  else if (keyCfgOf cfg tk).asModifiersLR != 0 && e.keyUp then
    AllowIt cfg s sc e EvType.hot true
  else if e.keyUp then
    if noSuppress then
      AllowIt cfg (KeyEvent s EmitKind.keyDown e.vk sc) sc e EvType.hot false
    else SuppressThisKeyFunc cfg s sc e
  else
    let s1 := setKeyRt s tk (fun r => { r with downPerformedAction := true })
    let s2 := markPrefixUsedForHotkey s1
    let s3 := keyEventIf noSuppress s2 EmitKind.keyDownAndUp e.vk sc
    SuppressThisKeyFunc cfg s3 sc e

/-- The ALT_TAB / ALT_TAB_SHIFT navigation emitted when the menu is already
(believed) visible: transient key-ups for a conflicting suffix, an ALT down
when none is held, TAB down+up with SHIFT held for the shifted variant. -/
def altTabNavigate (cfg : Cfg) (s : HookState) (sc : Nat) (e : Event)
    (tk : KeyRef) (id : Nat) (noSuppress : Bool) : HookState × Verdict :=
  let s1 := keyEventIf (!e.keyUp &&
      (e.vk == VK_LCONTROL || e.vk == VK_RCONTROL || e.vk == VK_CONTROL ||
       e.vk == VK_LSHIFT || e.vk == VK_RSHIFT || e.vk == VK_SHIFT))
    s EmitKind.keyUp e.vk 0
  let s2 := keyEventIf ((s1.logical &&& (MOD_LALT ||| MOD_RALT)) == 0 ||
      (e.keyUp && (e.vk == VK_LMENU || e.vk == VK_RMENU || e.vk == VK_MENU)))
    s1 EmitKind.keyDown VK_MENU 0
  let shiftPutDown := id == HOTKEY_ID_ALT_TAB_SHIFT &&
    (s2.logical &&& (MOD_LSHIFT ||| MOD_RSHIFT)) == 0
  let s3 := keyEventIf shiftPutDown s2 EmitKind.keyDown VK_SHIFT 0
  let s4 := KeyEvent s3 EmitKind.keyDownAndUp VK_TAB 0
  let s5 := keyEventIf shiftPutDown s4 EmitKind.keyUp VK_SHIFT 0
  afterSwitch cfg s5 sc e tk noSuppress

/-- The which-ALT-key-is-down selection of the MENU-family switch cases. -/
def whichAltDownOf (m : Nat) : Nat :=
  if m &&& MOD_LALT != 0 then VK_LMENU
  else if m &&& MOD_RALT != 0 then VK_RMENU else 0

/-- The MENU / DISMISS behavior when the menu is already visible: dismiss it
with an ALT up (plus an extra suffix up for a non-WIN modifier suffix) and
clear the visibility flag. -/
def menuDismissBlock (cfg : Cfg) (s : HookState) (sc : Nat) (e : Event)
    (tk : KeyRef) (noSuppress : Bool) : HookState × Verdict :=
  let wad := whichAltDownOf s.logical
  let s1 := KeyEvent s EmitKind.keyUp (if wad != 0 then wad else VK_MENU) 0
  let s2 := keyEventIf ((keyCfgOf cfg tk).asModifiersLR != 0 && e.vk != VK_LWIN &&
      e.vk != VK_RWIN) s1 EmitKind.keyUp e.vk 0
  afterSwitch cfg { s2 with altTabMenuVisible := false } sc e tk noSuppress

/-- The which-SHIFT-key selection of the menu-open block. -/
def whichShiftDownOf (m vk : Nat) (keyUp : Bool) : Nat :=
  if m &&& MOD_LSHIFT != 0 then VK_LSHIFT
  else if m &&& MOD_RSHIFT != 0 then VK_RSHIFT
  else if !keyUp && (vk == VK_LSHIFT || vk == VK_RSHIFT || vk == VK_SHIFT) then vk
  else 0

/-- The which-CONTROL-key selection of the menu-open block. -/
def whichControlDownOf (m vk : Nat) (keyUp : Bool) : Nat :=
  if m &&& MOD_LCONTROL != 0 then VK_LCONTROL
  else if m &&& MOD_RCONTROL != 0 then VK_RCONTROL
  else if !keyUp && (vk == VK_LCONTROL || vk == VK_RCONTROL || vk == VK_CONTROL) then vk
  else 0

/-- The MENU-family behavior when the menu is not yet visible: put up a
conflicting SHIFT/CTRL, put ALT down if none is held, send TAB down, restore
the transient SHIFT, and mark the menu visible. -/
def menuOpenBlock (cfg : Cfg) (s : HookState) (sc : Nat) (e : Event)
    (tk : KeyRef) (noSuppress : Bool) : HookState × Verdict :=
  let vkIsAlt := e.vk == VK_LMENU || e.vk == VK_RMENU || e.vk == VK_MENU
  let vkIsShift := e.vk == VK_LSHIFT || e.vk == VK_RSHIFT || e.vk == VK_SHIFT
  let wsd := whichShiftDownOf s.logical e.vk e.keyUp
  let wcd := whichControlDownOf s.logical e.vk e.keyUp
  let s1 := keyEventIf (wsd != 0) s EmitKind.keyUp wsd 0
  let s2 := keyEventIf (wcd != 0) s1 EmitKind.keyUp wcd 0
  let whichAlt2 := if vkIsAlt then (if e.keyUp then 0 else e.vk)
    else whichAltDownOf s.logical
  let s3 := keyEventIf (whichAlt2 == 0) s2 EmitKind.keyDown VK_MENU 0
  let s4 := KeyEvent s3 EmitKind.keyDown VK_TAB 0
  let s5 := keyEventIf (wsd != 0 && !vkIsShift) s4 EmitKind.keyDown wsd 0
  afterSwitch cfg { s5 with altTabMenuVisible := true } sc e tk noSuppress

/-- The HOTKEY_ID_ALT_TAB_MENU[-_DISMISS] / _AND_MENU switch cases (with the
C fallthrough from DISMISS into MENU and from AND_MENU into the ALT_TAB
case), plus the direct ALT_TAB / ALT_TAB_SHIFT cases and the default
PostMessage case. -/
def hotkeySwitch (cfg : Cfg) (s : HookState) (sc : Nat) (e : Event)
    (et : EvType) (tk : KeyRef) (id : Nat) (noSuppress : Bool) :
    HookState × Verdict :=
  if id == HOTKEY_ID_ALT_TAB_MENU_DISMISS && !s.altTabMenuVisible then
    AllowIt cfg s sc e et false
  else if id == HOTKEY_ID_ALT_TAB_MENU_DISMISS || id == HOTKEY_ID_ALT_TAB_MENU ||
      id == HOTKEY_ID_ALT_TAB_AND_MENU then
    if s.altTabMenuVisible then
      if id != HOTKEY_ID_ALT_TAB_AND_MENU then
        menuDismissBlock cfg s sc e tk noSuppress
      else altTabNavigate cfg s sc e tk id noSuppress
    else menuOpenBlock cfg s sc e tk noSuppress
  else if id == HOTKEY_ID_ALT_TAB || id == HOTKEY_ID_ALT_TAB_SHIFT then
    if !s.altTabMenuVisible then AllowIt cfg s sc e et false
    else altTabNavigate cfg s sc e tk id noSuppress
  else
    afterSwitch cfg { s with posts := s.posts ++ [id] } sc e tk noSuppress

/-- Case 4 after a hotkey id is known: the Start-menu / menu-bar disguise
arming (only WIN keys down, or only ALT keys down, and the held key not
itself a prefix), then the hotkey switch. -/
def afterLookup (cfg : Cfg) (s : HookState) (sc : Nat) (e : Event)
    (et : EvType) (tk : KeyRef) (id : Nat) (noSuppress : Bool) :
    HookState × Verdict :=
  let s1 :=
    if clearBits s.logical (MOD_LWIN ||| MOD_RWIN) == 0 then
      let sA := if (s.logical &&& MOD_LWIN) != 0 && !(cfg.kvkCfg VK_LWIN).usedAsPrefixKey
        then { s with dgLwin := true } else s
      if (sA.logical &&& MOD_RWIN) != 0 && !(cfg.kvkCfg VK_RWIN).usedAsPrefixKey
        then { sA with dgRwin := true } else sA
    else if clearBits s.logical (MOD_LALT ||| MOD_RALT) == 0 then
      let sA := if (s.logical &&& MOD_LALT) != 0 && !(cfg.kvkCfg VK_LMENU).usedAsPrefixKey
        then { s with dgLalt := true } else s
      if (sA.logical &&& MOD_RALT) != 0 && !(cfg.kvkCfg VK_RMENU).usedAsPrefixKey
        then { sA with dgRalt := true } else sA
    else s
  hotkeySwitch cfg s1 sc e et tk id noSuppress

/-- Case 4's second lookup path: the Kvkm/Kscm modifier-mask tables (with the
suffix's own modifier bits removed), retried with the ALT bits cleared when
the alt-tab menu is believed visible. -/
def maskLookup (cfg : Cfg) (s : HookState) (sc : Nat) (e : Event)
    (et : EvType) (tk : KeyRef) : HookState × Verdict :=
  let mlr := if (keyCfgOf cfg tk).asModifiersLR != 0 then
      clearBits s.logical (keyCfgOf cfg tk).asModifiersLR
    else s.logical
  let idf1 := if (cfg.kscCfg sc).scTakesPrecedence then cfg.KscmTable mlr sc
    else cfg.KvkmTable mlr e.vk
  let id1 := idf1 &&& HOTKEY_ID_MASK
  if id1 == HOTKEY_ID_INVALID && s.altTabMenuVisible then
    let mlr2 := clearBits mlr (MOD_LALT ||| MOD_RALT)
    let idf2 := if (cfg.kscCfg sc).scTakesPrecedence then cfg.KscmTable mlr2 sc
      else cfg.KvkmTable mlr2 e.vk
    let id2 := idf2 &&& HOTKEY_ID_MASK
    if id2 == HOTKEY_ID_INVALID then noHotkeyExit cfg s sc e et tk
    else afterLookup cfg s sc e et tk id2 ((idf2 &&& HOTKEY_NO_SUPPRESS) != 0)
  else if id1 == HOTKEY_ID_INVALID then noHotkeyExit cfg s sc e et tk
  else afterLookup cfg s sc e et tk id1 ((idf1 &&& HOTKEY_NO_SUPPRESS) != 0)

/-- The inline alt-tab handling for an ALT_TAB[-_SHIFT] hotkey found through
the ModifierVK/SC search (lines 1337-1433): puts ALT (and SHIFT for the
shifted variant) down, flags the prefix record with it_put_alt_down /
it_put_shift_down, sends TAB down+up, and suppresses. -/
def altTabInline (cfg : Cfg) (s : HookState) (sc : Nat) (e : Event)
    (tk bound : KeyRef) (id : Nat) : HookState × Verdict :=
  let s1 := setKeyRtIf (!e.keyUp) s tk
    (fun r => { r with downPerformedAction := true })
  let s2 := keyEventIf ((s1.logical &&& MOD_LALT) == 0 && (s1.logical &&& MOD_RALT) == 0)
    s1 EmitKind.keyDown VK_MENU 0
  let s3 := keyEventIf (e.vk == VK_LCONTROL || e.vk == VK_RCONTROL || e.vk == VK_CONTROL)
    s2 EmitKind.keyUp e.vk sc
  let s4 := setKeyRt s3 bound (fun r => { r with itPutAltDown := true })
  let s5 :=
    if id == HOTKEY_ID_ALT_TAB_SHIFT then
      let sA := keyEventIf ((s4.logical &&& MOD_LSHIFT) == 0 && (s4.logical &&& MOD_RSHIFT) == 0)
        s4 EmitKind.keyDown VK_SHIFT 0
      setKeyRt sA bound (fun r => { r with itPutShiftDown := true })
    else
      let sA := keyEventIf (e.vk == VK_LSHIFT || e.vk == VK_RSHIFT || e.vk == VK_SHIFT)
        s4 EmitKind.keyUp e.vk sc
      keyEventIf ((sA.logical &&& (MOD_LSHIFT ||| MOD_RSHIFT)) != 0) sA EmitKind.keyUp
        (if (sA.logical &&& MOD_RSHIFT) != 0 then VK_RSHIFT else VK_LSHIFT) 0
  let s6 := keyEventIf ((s5.logical &&& (MOD_LCONTROL ||| MOD_RCONTROL)) != 0)
    s5 EmitKind.keyUp
    (if (s5.logical &&& MOD_RCONTROL) != 0 then VK_RCONTROL else VK_LCONTROL) 0
  let s7 := KeyEvent s6 EmitKind.keyDownAndUp VK_TAB 0
  let s8 := setKeyRtIf (id == HOTKEY_ID_ALT_TAB_SHIFT && (keyRtOf s7 bound).itPutShiftDown &&
      ((VK_NUMPAD0 <= e.vk && e.vk <= VK_NUMPAD9) || e.vk == VK_DECIMAL))
    (keyEventIf (id == HOTKEY_ID_ALT_TAB_SHIFT && (keyRtOf s7 bound).itPutShiftDown &&
      ((VK_NUMPAD0 <= e.vk && e.vk <= VK_NUMPAD9) || e.vk == VK_DECIMAL))
      s7 EmitKind.keyUp VK_SHIFT 0) bound
    (fun r => { r with itPutShiftDown := false })
  SuppressThisKeyFunc cfg s8 sc e

/-- Case 4: the ModifierVK/ModifierSC first-match search (binding the found
key as the active prefix, marked AS_PREFIX_FOR_HOTKEY), the inline alt-tab
handling for that path, and otherwise the modifier-mask lookup. -/
def case4 (cfg : Cfg) (s : HookState) (sc : Nat) (e : Event) (et : EvType)
    (tk : KeyRef) : HookState × Verdict :=
  if s.pPrefixKey != none && !e.keyUp then
    match findVkMod s (keyCfgOf cfg tk).modifierVK with
    | some (w, idf) =>
      let bound := KeyRef.vk w
      let s1 := setKeyRt { s with pPrefixKey := some bound } bound
        (fun r => { r with wasJustUsed := AS_PREFIX_FOR_HOTKEY })
      let id := idf &&& HOTKEY_ID_MASK
      if id == HOTKEY_ID_ALT_TAB || id == HOTKEY_ID_ALT_TAB_SHIFT then
        altTabInline cfg s1 sc e tk bound id
      else afterLookup cfg s1 sc e et tk id ((idf &&& HOTKEY_NO_SUPPRESS) != 0)
    | none =>
      match findScMod s (keyCfgOf cfg tk).modifierSC with
      | some (c, idf) =>
        let bound := KeyRef.sc c
        let s1 := setKeyRt { s with pPrefixKey := some bound } bound
          (fun r => { r with wasJustUsed := AS_PREFIX_FOR_HOTKEY })
        let id := idf &&& HOTKEY_ID_MASK
        if id == HOTKEY_ID_ALT_TAB || id == HOTKEY_ID_ALT_TAB_SHIFT then
          altTabInline cfg s1 sc e tk bound id
        else afterLookup cfg s1 sc e et tk id ((idf &&& HOTKEY_NO_SUPPRESS) != 0)
      | none => maskLookup cfg s sc e et tk
  else maskLookup cfg s sc e et tk

/-- Case 3 steps 2: if the prefix put ALT or SHIFT down for alt-tab, release
them and clear the flags. -/
def releasePutDownMods (s : HookState) (tk : KeyRef) : HookState :=
  let sA := if (keyRtOf s tk).itPutAltDown then
      KeyEvent (setKeyRt s tk (fun r => { r with itPutAltDown := false }))
        EmitKind.keyUp VK_MENU 0
    else s
  if (keyRtOf sA tk).itPutShiftDown then
      KeyEvent (setKeyRt sA tk (fun r => { r with itPutShiftDown := false }))
        EmitKind.keyUp VK_SHIFT 0
    else sA

/-- The body of Case 3 after the prefix-slot clearing. -/
def case3After (cfg : Cfg) (s1 : HookState) (sc : Nat) (e : Event) (et : EvType)
    (tk : KeyRef) (wasDownBeforeUp : Bool) : HookState × Verdict :=
  let s3 := releasePutDownMods s1 tk
  let neutralToggle := toggleIsNeutral cfg (keyCfgOf cfg tk)
  if neutralToggle && (keyRtOf s3 tk).wasJustUsed == AS_PREFIX_FOR_HOTKEY then
    let s4 := KeyEvent (KeyEvent (KeyEvent s3 EmitKind.keyUp e.vk sc)
      EmitKind.keyDown e.vk sc) EmitKind.keyUp e.vk sc
    SuppressThisKeyFunc cfg s4 sc e
  else if neutralToggle && (keyRtOf s3 tk).wasJustUsed == AS_PREFIX then
    AllowIt cfg s3 sc e et false
  else if !neutralToggle && (keyRtOf s3 tk).wasJustUsed != 0 then
    if (keyCfgOf cfg tk).asModifiersLR != 0 then
      if (keyRtOf s3 tk).wasJustUsed == AS_PREFIX_FOR_HOTKEY then
        AllowIt cfg s3 sc e et true
      else AllowIt cfg s3 sc e et false
    else SuppressThisKeyFunc cfg s3 sc e
  else if !(keyCfgOf cfg tk).usedAsSuffix then
    if (keyCfgOf cfg tk).asModifiersLR != 0 || neutralToggle then
      AllowIt cfg s3 sc e et false
    else SuppressThisKeyFunc cfg s3 sc e
  else if !wasDownBeforeUp then AllowIt cfg s3 sc e et false
  else case4 cfg s3 sc e et tk

/-- Case 3 (prefix key released): clear the slot when this key is the active
prefix, then run the rest of the case (including its fall-through into
Case 4 for a prefix that is also a suffix and did not act as a prefix). -/
def case3 (cfg : Cfg) (s : HookState) (sc : Nat) (e : Event) (et : EvType)
    (tk : KeyRef) (wasDownBeforeUp : Bool) : HookState × Verdict :=
  case3After cfg
    (if s.pPrefixKey == some tk then { s with pPrefixKey := none } else s)
    sc e et tk wasDownBeforeUp

/-- Line 1069: while some other prefix is held and a non-modifier key goes
down, flag the held prefix as having been used AS_PREFIX. -/
def markHeldPrefixAsUsed (cfg : Cfg) (s : HookState) (tk : KeyRef) (e : Event) :
    HookState :=
  match s.pPrefixKey with
  | some p =>
    if !e.keyUp && (keyCfgOf cfg tk).asModifiersLR == 0 then
      setKeyRt s p (fun r => { r with wasJustUsed := AS_PREFIX })
    else s
  | none => s

/-- Cases 1 through 4 of the dispatcher, operating on the state after the
is_down bookkeeping. -/
def dispatchCases (cfg : Cfg) (s3 : HookState) (sc : Nat) (e : Event)
    (et : EvType) (tk : KeyRef) (wasDownBeforeUp downPerformedAction : Bool) :
    HookState × Verdict :=
  if (keyCfgOf cfg tk).usedAsPrefixKey && !e.keyUp &&
      (s3.pPrefixKey == none || !(keyCfgOf cfg tk).usedAsSuffix) then
    let s4 := setKeyRt { s3 with pPrefixKey := some tk } tk
      (fun r => { r with wasJustUsed := 0 })
    if (keyCfgOf cfg tk).asModifiersLR != 0 ||
        toggleIsNeutral cfg (keyCfgOf cfg tk) then
      AllowIt cfg s4 sc e et false
    else SuppressThisKeyFunc cfg s4 sc e
  else if (keyCfgOf cfg tk).usedAsSuffix && s3.pPrefixKey != some tk && e.keyUp then
    if downPerformedAction then SuppressThisKeyFunc cfg s3 sc e
    else AllowIt cfg s3 sc e et false
  else if (keyCfgOf cfg tk).usedAsPrefixKey && e.keyUp then
    case3 cfg s3 sc e et tk wasDownBeforeUp
  else case4 cfg s3 sc e et tk

/-- The four-case dispatcher body (everything in LowLevelKeybdProc after the
KEYIGNORE early return and the armed-disguise branch): the auto-repeat
short-circuit, the was_just_used=AS_PREFIX marking, the
neither-prefix-nor-suffix early pass, the is_down bookkeeping, and Cases
1 through 4 in dispatchCases. -/
def dispatchMain (cfg : Cfg) (s : HookState) (sc : Nat) (e : Event)
    (et : EvType) : HookState × Verdict :=
  let tk := hookThisKey cfg sc e.vk
  if s.pPrefixKey == some tk && !e.keyUp then
    if (keyCfgOf cfg tk).asModifiersLR != 0 then AllowIt cfg s sc e et false
    else SuppressThisKeyFunc cfg s sc e
  else
    let s1 := markHeldPrefixAsUsed cfg s tk e
    if !(keyCfgOf cfg tk).usedAsPrefixKey && !(keyCfgOf cfg tk).usedAsSuffix then
      AllowIt cfg s1 sc e et false
    else
      let wasDownBeforeUp := (keyRtOf s1 tk).isDown
      let downPerformedAction := (keyRtOf s1 tk).downPerformedAction
      let s2 := setKeyRtIf e.keyUp s1 tk
        (fun r => { r with downPerformedAction := false })
      let s3 := setKeyRt s2 tk (fun r => { r with isDown := !e.keyUp })
      dispatchCases cfg s3 sc e et tk wasDownBeforeUp downPerformedAction

/-- The armed WIN/ALT key-up disguise (lines 1002-1030): clear the armed
flag for this virtual key, emit SHIFT down, this key's up, SHIFT up, and
suppress the real event. -/
def disguiseBlock (cfg : Cfg) (s : HookState) (sc : Nat) (e : Event) :
    HookState × Verdict :=
  let s1 := if e.vk == VK_LWIN then { s with dgLwin := false }
    else if e.vk == VK_RWIN then { s with dgRwin := false }
    else if e.vk == VK_MENU || e.vk == VK_LMENU then { s with dgLalt := false }
    else if e.vk == VK_RMENU then { s with dgRalt := false }
    else s
  let s2 := KeyEvent s1 EmitKind.keyDown VK_SHIFT 0
  let s3 := KeyEvent s2 EmitKind.keyUp e.vk sc
  let s4 := KeyEvent s3 EmitKind.keyUp VK_SHIFT 0
  SuppressThisKeyFunc cfg s4 sc e

/-- `LowLevelKeybdProc` for an event with code == HC_ACTION: scan-code
normalization, pad_state and alt-tab bookkeeping, physical key tracking,
the KEYIGNORE early pass, the armed WIN/ALT-up disguise, then the four-case
dispatcher. -/
def LowLevelKeybdProc (cfg : Cfg) (s0 : HookState) (e : Event) :
    HookState × Verdict :=
  let sc := scNormalize cfg e
  let et := if e.ignored then EvType.ign else EvType.blank
  let s := physKeyStep cfg (altTabVisibleStep (padStateStep s0 e sc) e) e
  if e.ignored then AllowIt cfg s sc e et false
  else if e.keyUp && ((s.dgLwin && e.vk == VK_LWIN) || (s.dgRwin && e.vk == VK_RWIN) ||
      (s.dgLalt && (e.vk == VK_LMENU || e.vk == VK_MENU)) ||
      (s.dgRalt && e.vk == VK_RMENU)) then
    disguiseBlock cfg s sc e
  else dispatchMain cfg s sc e et

/-! ## Default configuration, initial state, and concrete scenarios -/

/-- The modifier mask the external table builder assigns to each modifier
virtual key (as_modifiersLR; zero for non-modifier keys, the pair of side
bits for a neutral key). -/
def modBitOfVk (v : Nat) : Nat :=
  if v == VK_LSHIFT then MOD_LSHIFT
  else if v == VK_RSHIFT then MOD_RSHIFT
  else if v == VK_SHIFT then MOD_LSHIFT ||| MOD_RSHIFT
  else if v == VK_LCONTROL then MOD_LCONTROL
  else if v == VK_RCONTROL then MOD_RCONTROL
  else if v == VK_CONTROL then MOD_LCONTROL ||| MOD_RCONTROL
  else if v == VK_LMENU then MOD_LALT
  else if v == VK_RMENU then MOD_RALT
  else if v == VK_MENU then MOD_LALT ||| MOD_RALT
  else if v == VK_LWIN then MOD_LWIN
  else if v == VK_RWIN then MOD_RWIN
  else 0

def baseKeyCfg (m : Nat) : KeyCfg :=
  { usedAsPrefixKey := false, usedAsSuffix := false, asModifiersLR := m,
    pForceToggle := none, modifierVK := [], modifierSC := [],
    scTakesPrecedence := false }

/-- A configuration with no hotkeys: every record pre-initialized false,
except that modifier virtual keys carry their as_modifiersLR mask. -/
def baseCfg : Cfg :=
  { kvkCfg := fun v => baseKeyCfg (modBitOfVk v),
    kscCfg := fun _ => baseKeyCfg 0,
    toggles := fun _ => ToggleVal.neutral,
    KvkmTable := fun _ _ => HOTKEY_ID_INVALID,
    KscmTable := fun _ _ => HOTKEY_ID_INVALID,
    vkToSc := fun _ => 0,
    isWinXPorLater := true, isWin2000 := false, isWinNT4 := false }

def initKeyRt : KeyRt :=
  { isDown := false, downPerformedAction := false, wasJustUsed := 0,
    itPutAltDown := false, itPutShiftDown := false }

def initState : HookState :=
  { logical := 0, physical := 0, physKeys := fun _ => false,
    padState := fun _ => false, nextPhantom := false,
    priorVk := 0, priorSc := 0, priorKeyUp := false, priorPhysical := false,
    priorTick := 0, priorModsPhys := 0, priorShiftState := false,
    priorLShiftState := false, pPrefixKey := none,
    kvkRt := fun _ => initKeyRt, kscRt := fun _ => initKeyRt,
    dgLwin := false, dgRwin := false, dgLalt := false, dgRalt := false,
    altTabMenuVisible := false, timeLastPhysical := 0,
    emissions := [], posts := [] }

/-- A plain non-injected, non-ignored, non-extended key event with scan code
0 and Numlock off. -/
def mkEvent (v t : Nat) (up : Bool) : Event :=
  { vk := v, scan := 0, keyUp := up, injected := false, extended := false,
    ignored := false, time := t, tick := t, numlockOn := false }

/-- The claim's reading of "exactly one ALT bit is set in logical_mods"
(stated from the spec's words, for comparison with the code's condition). -/
def exactlyOneAltBitSet (m : Nat) : Bool :=
  xor ((m &&& MOD_LALT) != 0) ((m &&& MOD_RALT) != 0)

/-- C2 scenario: CapsLock configured as a pure prefix key with a force-toggle
currently NEUTRAL. -/
def c2cfg : Cfg :=
  { baseCfg with kvkCfg := fun v =>
      if v == VK_CAPITAL then
        { (baseKeyCfg 0) with usedAsPrefixKey := true, pForceToggle := some 0 }
      else baseKeyCfg (modBitOfVk v) }

/-- C2 scenario: CapsLock is already the active prefix (held down and having
modified another key), as after `CAPS down, X down`. -/
def c2sRepeat : HookState :=
  { initState with
    pPrefixKey := some (KeyRef.vk VK_CAPITAL),
    kvkRt := Function.update initState.kvkRt VK_CAPITAL
      { initKeyRt with isDown := true, wasJustUsed := AS_PREFIX } }

/-- C2 scenario: the auto-repeating CapsLock key-down. -/
def c2e : Event := mkEvent VK_CAPITAL 10 false

/-- C3 scenario configuration: key x (0x41) is a pure prefix; key y (0x42) is
both a prefix and a suffix (suffix of `c & y`, so its record's ModifierVK
list holds c = 0x44); key b (0x43) is a pure suffix of `y & b`, so its
ModifierVK list holds y. -/
def c3cfg : Cfg :=
  { baseCfg with kvkCfg := fun v =>
      if v == 65 then { (baseKeyCfg 0) with usedAsPrefixKey := true }
      else if v == 66 then
        { (baseKeyCfg 0) with
          usedAsPrefixKey := true, usedAsSuffix := true,
          modifierVK := [(68, 11)] }
      else if v == 67 then
        { (baseKeyCfg 0) with usedAsSuffix := true, modifierVK := [(66, 12)] }
      else if v == 68 then { (baseKeyCfg 0) with usedAsPrefixKey := true }
      else baseKeyCfg (modBitOfVk v) }

def c3e1 : Event := mkEvent 65 0 false
def c3e2 : Event := mkEvent 66 1 false
def c3e3 : Event := mkEvent 67 2 false

def c3s1 : HookState := (LowLevelKeybdProc c3cfg initState c3e1).1
def c3s2 : HookState := (LowLevelKeybdProc c3cfg c3s1 c3e2).1
def c3s3 : HookState := (LowLevelKeybdProc c3cfg c3s2 c3e3).1

/-- C4 witness scenario: the LWIN-up disguise is armed. -/
def c4s : HookState := { initState with dgLwin := true }

def c4e : Event := mkEvent VK_LWIN 5 true

/-- C6 scenario: a Windows-2000 system (the Ctrl-Alt-Del reset path is
live). -/
def c6cfg : Cfg := { baseCfg with isWinXPorLater := false, isWin2000 := true }

def c6e1 : Event := mkEvent VK_LCONTROL 0 false
def c6e2 : Event := mkEvent VK_LMENU 100 false
def c6e3 : Event := mkEvent VK_DELETE 200 false

def c6s1 : HookState := (LowLevelKeybdProc c6cfg initState c6e1).1
def c6s2 : HookState := (LowLevelKeybdProc c6cfg c6s1 c6e2).1
def c6s3 : HookState := (LowLevelKeybdProc c6cfg c6s2 c6e3).1

/-- C8 counterexample state: both ALT bits are in logical_mods, the alt-tab
menu not yet believed visible. -/
def c8s : HookState := { initState with logical := MOD_LALT ||| MOD_RALT }

/-- C8 witness state: only the left ALT bit is in logical_mods. -/
def c8sOne : HookState := { initState with logical := MOD_LALT }

def c8e : Event := mkEvent VK_TAB 3 false

def c9e1 : Event := mkEvent VK_LWIN 0 false
def c9e2 : Event := mkEvent VK_RWIN 100 false
def c9e3 : Event := mkEvent VK_L 200 false

def c9s1 : HookState := (LowLevelKeybdProc baseCfg initState c9e1).1
def c9s2 : HookState := (LowLevelKeybdProc baseCfg c9s1 c9e2).1
def c9r3 : HookState × Verdict := LowLevelKeybdProc baseCfg c9s2 c9e3

/-- C10 witness configuration: ScrollLock (0x91) carries a force-toggle
pointer whose target is currently ALWAYS_ON. -/
def c10cfg : Cfg :=
  { baseCfg with
    kvkCfg := fun v =>
      if v == 145 then { (baseKeyCfg 0) with pForceToggle := some 0 }
      else baseKeyCfg (modBitOfVk v),
    toggles := fun _ => ToggleVal.alwaysOn }

def c10e : Event := mkEvent 145 7 false

/-- C1 witness state: the "next phantom shift is coming" flag is armed and no
dual-state numpad key is in pad_state. -/
def c1s : HookState := { initState with nextPhantom := true }

def c1e : Event := mkEvent VK_LSHIFT 4 false

/-! ## Preservation lemmas -/

@[simp] theorem eip_logical (s : HookState) (e : Event) :
    ((EventIsPhysical s e).2).logical = s.logical := by
  unfold EventIsPhysical
  (repeat' split) <;> rfl

@[simp] theorem eip_physical (s : HookState) (e : Event) :
    ((EventIsPhysical s e).2).physical = s.physical := by
  unfold EventIsPhysical
  (repeat' split) <;> rfl

@[simp] theorem eip_physKeys (s : HookState) (e : Event) :
    ((EventIsPhysical s e).2).physKeys = s.physKeys := by
  unfold EventIsPhysical
  (repeat' split) <;> rfl

@[simp] theorem eip_pPrefixKey (s : HookState) (e : Event) :
    ((EventIsPhysical s e).2).pPrefixKey = s.pPrefixKey := by
  unfold EventIsPhysical
  (repeat' split) <;> rfl

@[simp] theorem eip_kvkRt (s : HookState) (e : Event) :
    ((EventIsPhysical s e).2).kvkRt = s.kvkRt := by
  unfold EventIsPhysical
  (repeat' split) <;> rfl

@[simp] theorem eip_kscRt (s : HookState) (e : Event) :
    ((EventIsPhysical s e).2).kscRt = s.kscRt := by
  unfold EventIsPhysical
  (repeat' split) <;> rfl

@[simp] theorem eip_emissions (s : HookState) (e : Event) :
    ((EventIsPhysical s e).2).emissions = s.emissions := by
  unfold EventIsPhysical
  (repeat' split) <;> rfl

@[simp] theorem eip_posts (s : HookState) (e : Event) :
    ((EventIsPhysical s e).2).posts = s.posts := by
  unfold EventIsPhysical
  (repeat' split) <;> rfl

@[simp] theorem eip_dgLwin (s : HookState) (e : Event) :
    ((EventIsPhysical s e).2).dgLwin = s.dgLwin := by
  unfold EventIsPhysical
  (repeat' split) <;> rfl

@[simp] theorem eip_dgRwin (s : HookState) (e : Event) :
    ((EventIsPhysical s e).2).dgRwin = s.dgRwin := by
  unfold EventIsPhysical
  (repeat' split) <;> rfl

@[simp] theorem eip_dgLalt (s : HookState) (e : Event) :
    ((EventIsPhysical s e).2).dgLalt = s.dgLalt := by
  unfold EventIsPhysical
  (repeat' split) <;> rfl

@[simp] theorem eip_dgRalt (s : HookState) (e : Event) :
    ((EventIsPhysical s e).2).dgRalt = s.dgRalt := by
  unfold EventIsPhysical
  (repeat' split) <;> rfl

@[simp] theorem eip_altTab (s : HookState) (e : Event) :
    ((EventIsPhysical s e).2).altTabMenuVisible = s.altTabMenuVisible := by
  unfold EventIsPhysical
  (repeat' split) <;> rfl

@[simp] theorem eip_padState (s : HookState) (e : Event) :
    ((EventIsPhysical s e).2).padState = s.padState := by
  unfold EventIsPhysical
  (repeat' split) <;> rfl

@[simp] theorem keyRtOf_setKeyRt_same (s : HookState) (r : KeyRef) (f : KeyRt → KeyRt) :
    keyRtOf (setKeyRt s r f) r = f (keyRtOf s r) := by
  cases r <;> simp [keyRtOf, setKeyRt]

theorem keyRtOf_setKeyRt_ne (s : HookState) (r r' : KeyRef) (f : KeyRt → KeyRt)
    (h : r' ≠ r) : keyRtOf (setKeyRt s r f) r' = keyRtOf s r' := by
  cases r <;> cases r' <;> simp_all [keyRtOf, setKeyRt] <;>
    exact Function.update_noteq (by omega) _ _

@[simp] theorem setKeyRt_pPrefixKey (s : HookState) (r : KeyRef) (f : KeyRt → KeyRt) :
    (setKeyRt s r f).pPrefixKey = s.pPrefixKey := by cases r <;> rfl

@[simp] theorem setKeyRt_emissions (s : HookState) (r : KeyRef) (f : KeyRt → KeyRt) :
    (setKeyRt s r f).emissions = s.emissions := by cases r <;> rfl

@[simp] theorem setKeyRt_logical (s : HookState) (r : KeyRef) (f : KeyRt → KeyRt) :
    (setKeyRt s r f).logical = s.logical := by cases r <;> rfl

@[simp] theorem setKeyRt_dgLwin (s : HookState) (r : KeyRef) (f : KeyRt → KeyRt) :
    (setKeyRt s r f).dgLwin = s.dgLwin := by cases r <;> rfl

@[simp] theorem setKeyRt_dgRwin (s : HookState) (r : KeyRef) (f : KeyRt → KeyRt) :
    (setKeyRt s r f).dgRwin = s.dgRwin := by cases r <;> rfl

@[simp] theorem setKeyRt_dgLalt (s : HookState) (r : KeyRef) (f : KeyRt → KeyRt) :
    (setKeyRt s r f).dgLalt = s.dgLalt := by cases r <;> rfl

@[simp] theorem setKeyRt_dgRalt (s : HookState) (r : KeyRef) (f : KeyRt → KeyRt) :
    (setKeyRt s r f).dgRalt = s.dgRalt := by cases r <;> rfl

@[simp] theorem keyEventIf_pPrefixKey (c : Bool) (s : HookState) (k : EmitKind)
    (v sc : Nat) : (keyEventIf c s k v sc).pPrefixKey = s.pPrefixKey := by
  unfold keyEventIf; split <;> rfl

@[simp] theorem keyEventIf_kvkRt (c : Bool) (s : HookState) (k : EmitKind)
    (v sc : Nat) : (keyEventIf c s k v sc).kvkRt = s.kvkRt := by
  unfold keyEventIf; split <;> rfl

@[simp] theorem keyEventIf_kscRt (c : Bool) (s : HookState) (k : EmitKind)
    (v sc : Nat) : (keyEventIf c s k v sc).kscRt = s.kscRt := by
  unfold keyEventIf; split <;> rfl

@[simp] theorem keyEventIf_logical (c : Bool) (s : HookState) (k : EmitKind)
    (v sc : Nat) : (keyEventIf c s k v sc).logical = s.logical := by
  unfold keyEventIf; split <;> rfl

@[simp] theorem keyEventIf_dgLwin (c : Bool) (s : HookState) (k : EmitKind)
    (v sc : Nat) : (keyEventIf c s k v sc).dgLwin = s.dgLwin := by
  unfold keyEventIf; split <;> rfl

@[simp] theorem keyEventIf_dgRwin (c : Bool) (s : HookState) (k : EmitKind)
    (v sc : Nat) : (keyEventIf c s k v sc).dgRwin = s.dgRwin := by
  unfold keyEventIf; split <;> rfl

@[simp] theorem keyEventIf_dgLalt (c : Bool) (s : HookState) (k : EmitKind)
    (v sc : Nat) : (keyEventIf c s k v sc).dgLalt = s.dgLalt := by
  unfold keyEventIf; split <;> rfl

@[simp] theorem keyEventIf_dgRalt (c : Bool) (s : HookState) (k : EmitKind)
    (v sc : Nat) : (keyEventIf c s k v sc).dgRalt = s.dgRalt := by
  unfold keyEventIf; split <;> rfl

@[simp] theorem keyEventIf_altTab (c : Bool) (s : HookState) (k : EmitKind)
    (v sc : Nat) : (keyEventIf c s k v sc).altTabMenuVisible = s.altTabMenuVisible := by
  unfold keyEventIf; split <;> rfl

@[simp] theorem setKeyRtIf_pPrefixKey (c : Bool) (s : HookState) (r : KeyRef)
    (f : KeyRt → KeyRt) : (setKeyRtIf c s r f).pPrefixKey = s.pPrefixKey := by
  unfold setKeyRtIf; split <;> first
  | rfl
  | (cases r <;> rfl)

@[simp] theorem setKeyRtIf_emissions (c : Bool) (s : HookState) (r : KeyRef)
    (f : KeyRt → KeyRt) : (setKeyRtIf c s r f).emissions = s.emissions := by
  unfold setKeyRtIf; split <;> first
  | rfl
  | (cases r <;> rfl)

@[simp] theorem setKeyRtIf_logical (c : Bool) (s : HookState) (r : KeyRef)
    (f : KeyRt → KeyRt) : (setKeyRtIf c s r f).logical = s.logical := by
  unfold setKeyRtIf; split <;> first
  | rfl
  | (cases r <;> rfl)

@[simp] theorem setKeyRtIf_dgLwin (c : Bool) (s : HookState) (r : KeyRef)
    (f : KeyRt → KeyRt) : (setKeyRtIf c s r f).dgLwin = s.dgLwin := by
  unfold setKeyRtIf; split <;> first
  | rfl
  | (cases r <;> rfl)

@[simp] theorem setKeyRtIf_dgRwin (c : Bool) (s : HookState) (r : KeyRef)
    (f : KeyRt → KeyRt) : (setKeyRtIf c s r f).dgRwin = s.dgRwin := by
  unfold setKeyRtIf; split <;> first
  | rfl
  | (cases r <;> rfl)

@[simp] theorem setKeyRtIf_dgLalt (c : Bool) (s : HookState) (r : KeyRef)
    (f : KeyRt → KeyRt) : (setKeyRtIf c s r f).dgLalt = s.dgLalt := by
  unfold setKeyRtIf; split <;> first
  | rfl
  | (cases r <;> rfl)

@[simp] theorem setKeyRtIf_dgRalt (c : Bool) (s : HookState) (r : KeyRef)
    (f : KeyRt → KeyRt) : (setKeyRtIf c s r f).dgRalt = s.dgRalt := by
  unfold setKeyRtIf; split <;> first
  | rfl
  | (cases r <;> rfl)

@[simp] theorem setKeyRtIf_altTab (c : Bool) (s : HookState) (r : KeyRef)
    (f : KeyRt → KeyRt) : (setKeyRtIf c s r f).altTabMenuVisible = s.altTabMenuVisible := by
  unfold setKeyRtIf; split <;> first
  | rfl
  | (cases r <;> rfl)

@[simp] theorem setKeyRt_altTab (s : HookState) (r : KeyRef) (f : KeyRt → KeyRt) :
    (setKeyRt s r f).altTabMenuVisible = s.altTabMenuVisible := by cases r <;> rfl

@[simp] theorem setKeyRt_posts (s : HookState) (r : KeyRef) (f : KeyRt → KeyRt) :
    (setKeyRt s r f).posts = s.posts := by cases r <;> rfl

@[simp] theorem setKeyRt_padState (s : HookState) (r : KeyRef) (f : KeyRt → KeyRt) :
    (setKeyRt s r f).padState = s.padState := by cases r <;> rfl

@[simp] theorem setKeyRt_physKeys (s : HookState) (r : KeyRef) (f : KeyRt → KeyRt) :
    (setKeyRt s r f).physKeys = s.physKeys := by cases r <;> rfl

@[simp] theorem setKeyRt_physical (s : HookState) (r : KeyRef) (f : KeyRt → KeyRt) :
    (setKeyRt s r f).physical = s.physical := by cases r <;> rfl

@[simp] theorem applyModBranch_pPrefixKey (s : HookState) (e : Event) (b : Bool)
    (bit side otherSide : Nat) (neutral : Option Nat) :
    (applyModBranch s e b bit side otherSide neutral).pPrefixKey = s.pPrefixKey := by
  unfold applyModBranch
  (repeat' split) <;> simp [setPhysKey, apply_ite]

@[simp] theorem applyModBranch_kvkRt (s : HookState) (e : Event) (b : Bool)
    (bit side otherSide : Nat) (neutral : Option Nat) :
    (applyModBranch s e b bit side otherSide neutral).kvkRt = s.kvkRt := by
  unfold applyModBranch
  (repeat' split) <;> simp [setPhysKey, apply_ite]

@[simp] theorem applyModBranch_kscRt (s : HookState) (e : Event) (b : Bool)
    (bit side otherSide : Nat) (neutral : Option Nat) :
    (applyModBranch s e b bit side otherSide neutral).kscRt = s.kscRt := by
  unfold applyModBranch
  (repeat' split) <;> simp [setPhysKey, apply_ite]

@[simp] theorem applyModBranch_emissions (s : HookState) (e : Event) (b : Bool)
    (bit side otherSide : Nat) (neutral : Option Nat) :
    (applyModBranch s e b bit side otherSide neutral).emissions = s.emissions := by
  unfold applyModBranch
  (repeat' split) <;> simp [setPhysKey, apply_ite]

@[simp] theorem applyModBranch_posts (s : HookState) (e : Event) (b : Bool)
    (bit side otherSide : Nat) (neutral : Option Nat) :
    (applyModBranch s e b bit side otherSide neutral).posts = s.posts := by
  unfold applyModBranch
  (repeat' split) <;> simp [setPhysKey, apply_ite]

@[simp] theorem applyModBranch_dgLwin (s : HookState) (e : Event) (b : Bool)
    (bit side otherSide : Nat) (neutral : Option Nat) :
    (applyModBranch s e b bit side otherSide neutral).dgLwin = s.dgLwin := by
  unfold applyModBranch
  (repeat' split) <;> simp [setPhysKey, apply_ite]

@[simp] theorem applyModBranch_dgRwin (s : HookState) (e : Event) (b : Bool)
    (bit side otherSide : Nat) (neutral : Option Nat) :
    (applyModBranch s e b bit side otherSide neutral).dgRwin = s.dgRwin := by
  unfold applyModBranch
  (repeat' split) <;> simp [setPhysKey, apply_ite]

@[simp] theorem applyModBranch_dgLalt (s : HookState) (e : Event) (b : Bool)
    (bit side otherSide : Nat) (neutral : Option Nat) :
    (applyModBranch s e b bit side otherSide neutral).dgLalt = s.dgLalt := by
  unfold applyModBranch
  (repeat' split) <;> simp [setPhysKey, apply_ite]

@[simp] theorem applyModBranch_dgRalt (s : HookState) (e : Event) (b : Bool)
    (bit side otherSide : Nat) (neutral : Option Nat) :
    (applyModBranch s e b bit side otherSide neutral).dgRalt = s.dgRalt := by
  unfold applyModBranch
  (repeat' split) <;> simp [setPhysKey, apply_ite]

@[simp] theorem applyModBranch_altTab (s : HookState) (e : Event) (b : Bool)
    (bit side otherSide : Nat) (neutral : Option Nat) :
    (applyModBranch s e b bit side otherSide neutral).altTabMenuVisible =
      s.altTabMenuVisible := by
  unfold applyModBranch
  (repeat' split) <;> simp [setPhysKey, apply_ite]

@[simp] theorem applyModBranch_padState (s : HookState) (e : Event) (b : Bool)
    (bit side otherSide : Nat) (neutral : Option Nat) :
    (applyModBranch s e b bit side otherSide neutral).padState = s.padState := by
  unfold applyModBranch
  (repeat' split) <;> simp [setPhysKey, apply_ite]

/-- With aIsSuppressed = true, applyModBranch leaves logical_mods alone. -/
theorem applyModBranch_suppressed_logical (s : HookState) (e : Event)
    (bit side otherSide : Nat) (neutral : Option Nat) :
    (applyModBranch s e true bit side otherSide neutral).logical = s.logical := by
  unfold applyModBranch
  (repeat' split) <;> simp_all [setPhysKey, apply_ite]

@[simp] theorem ums_pPrefixKey (s : HookState) (e : Event) (sc : Nat) (b : Bool) :
    (UpdateModifierState s e sc b).pPrefixKey = s.pPrefixKey := by
  unfold UpdateModifierState
  (repeat' split) <;> simp

@[simp] theorem ums_kvkRt (s : HookState) (e : Event) (sc : Nat) (b : Bool) :
    (UpdateModifierState s e sc b).kvkRt = s.kvkRt := by
  unfold UpdateModifierState
  (repeat' split) <;> simp

@[simp] theorem ums_kscRt (s : HookState) (e : Event) (sc : Nat) (b : Bool) :
    (UpdateModifierState s e sc b).kscRt = s.kscRt := by
  unfold UpdateModifierState
  (repeat' split) <;> simp

@[simp] theorem ums_emissions (s : HookState) (e : Event) (sc : Nat) (b : Bool) :
    (UpdateModifierState s e sc b).emissions = s.emissions := by
  unfold UpdateModifierState
  (repeat' split) <;> simp

@[simp] theorem ums_posts (s : HookState) (e : Event) (sc : Nat) (b : Bool) :
    (UpdateModifierState s e sc b).posts = s.posts := by
  unfold UpdateModifierState
  (repeat' split) <;> simp

@[simp] theorem ums_dgLwin (s : HookState) (e : Event) (sc : Nat) (b : Bool) :
    (UpdateModifierState s e sc b).dgLwin = s.dgLwin := by
  unfold UpdateModifierState
  (repeat' split) <;> simp

@[simp] theorem ums_dgRwin (s : HookState) (e : Event) (sc : Nat) (b : Bool) :
    (UpdateModifierState s e sc b).dgRwin = s.dgRwin := by
  unfold UpdateModifierState
  (repeat' split) <;> simp

@[simp] theorem ums_dgLalt (s : HookState) (e : Event) (sc : Nat) (b : Bool) :
    (UpdateModifierState s e sc b).dgLalt = s.dgLalt := by
  unfold UpdateModifierState
  (repeat' split) <;> simp

@[simp] theorem ums_dgRalt (s : HookState) (e : Event) (sc : Nat) (b : Bool) :
    (UpdateModifierState s e sc b).dgRalt = s.dgRalt := by
  unfold UpdateModifierState
  (repeat' split) <;> simp

@[simp] theorem ums_altTab (s : HookState) (e : Event) (sc : Nat) (b : Bool) :
    (UpdateModifierState s e sc b).altTabMenuVisible = s.altTabMenuVisible := by
  unfold UpdateModifierState
  (repeat' split) <;> simp

@[simp] theorem ums_padState (s : HookState) (e : Event) (sc : Nat) (b : Bool) :
    (UpdateModifierState s e sc b).padState = s.padState := by
  unfold UpdateModifierState
  (repeat' split) <;> simp

@[simp] theorem uks_pPrefixKey (cfg : Cfg) (s : HookState) (sc : Nat) (e : Event)
    (b : Bool) : (UpdateKeyState cfg s sc e b).pPrefixKey = s.pPrefixKey := by
  unfold UpdateKeyState
  dsimp only
  (repeat' split) <;> simp [setPhysKey]

@[simp] theorem uks_kvkRt (cfg : Cfg) (s : HookState) (sc : Nat) (e : Event)
    (b : Bool) : (UpdateKeyState cfg s sc e b).kvkRt = s.kvkRt := by
  unfold UpdateKeyState
  dsimp only
  (repeat' split) <;> simp [setPhysKey]

@[simp] theorem uks_kscRt (cfg : Cfg) (s : HookState) (sc : Nat) (e : Event)
    (b : Bool) : (UpdateKeyState cfg s sc e b).kscRt = s.kscRt := by
  unfold UpdateKeyState
  dsimp only
  (repeat' split) <;> simp [setPhysKey]

@[simp] theorem uks_emissions (cfg : Cfg) (s : HookState) (sc : Nat) (e : Event)
    (b : Bool) : (UpdateKeyState cfg s sc e b).emissions = s.emissions := by
  unfold UpdateKeyState
  dsimp only
  (repeat' split) <;> simp [setPhysKey]

@[simp] theorem uks_posts (cfg : Cfg) (s : HookState) (sc : Nat) (e : Event)
    (b : Bool) : (UpdateKeyState cfg s sc e b).posts = s.posts := by
  unfold UpdateKeyState
  dsimp only
  (repeat' split) <;> simp [setPhysKey]

@[simp] theorem uks_dgLwin (cfg : Cfg) (s : HookState) (sc : Nat) (e : Event)
    (b : Bool) : (UpdateKeyState cfg s sc e b).dgLwin = s.dgLwin := by
  unfold UpdateKeyState
  dsimp only
  (repeat' split) <;> simp [setPhysKey]

@[simp] theorem uks_dgRwin (cfg : Cfg) (s : HookState) (sc : Nat) (e : Event)
    (b : Bool) : (UpdateKeyState cfg s sc e b).dgRwin = s.dgRwin := by
  unfold UpdateKeyState
  dsimp only
  (repeat' split) <;> simp [setPhysKey]

@[simp] theorem uks_dgLalt (cfg : Cfg) (s : HookState) (sc : Nat) (e : Event)
    (b : Bool) : (UpdateKeyState cfg s sc e b).dgLalt = s.dgLalt := by
  unfold UpdateKeyState
  dsimp only
  (repeat' split) <;> simp [setPhysKey]

@[simp] theorem uks_dgRalt (cfg : Cfg) (s : HookState) (sc : Nat) (e : Event)
    (b : Bool) : (UpdateKeyState cfg s sc e b).dgRalt = s.dgRalt := by
  unfold UpdateKeyState
  dsimp only
  (repeat' split) <;> simp [setPhysKey]

@[simp] theorem uks_altTab (cfg : Cfg) (s : HookState) (sc : Nat) (e : Event)
    (b : Bool) : (UpdateKeyState cfg s sc e b).altTabMenuVisible =
      s.altTabMenuVisible := by
  unfold UpdateKeyState
  dsimp only
  (repeat' split) <;> simp [setPhysKey]

@[simp] theorem uks_padState (cfg : Cfg) (s : HookState) (sc : Nat) (e : Event)
    (b : Bool) : (UpdateKeyState cfg s sc e b).padState = s.padState := by
  unfold UpdateKeyState
  dsimp only
  (repeat' split) <;> simp [setPhysKey]

@[simp] theorem KeyEvent_pPrefixKey (s : HookState) (k : EmitKind) (v c : Nat) :
    (KeyEvent s k v c).pPrefixKey = s.pPrefixKey := rfl

@[simp] theorem KeyEvent_kvkRt (s : HookState) (k : EmitKind) (v c : Nat) :
    (KeyEvent s k v c).kvkRt = s.kvkRt := rfl

@[simp] theorem KeyEvent_kscRt (s : HookState) (k : EmitKind) (v c : Nat) :
    (KeyEvent s k v c).kscRt = s.kscRt := rfl

@[simp] theorem KeyEvent_logical (s : HookState) (k : EmitKind) (v c : Nat) :
    (KeyEvent s k v c).logical = s.logical := rfl

@[simp] theorem KeyEvent_dgLwin (s : HookState) (k : EmitKind) (v c : Nat) :
    (KeyEvent s k v c).dgLwin = s.dgLwin := rfl

@[simp] theorem KeyEvent_dgRwin (s : HookState) (k : EmitKind) (v c : Nat) :
    (KeyEvent s k v c).dgRwin = s.dgRwin := rfl

@[simp] theorem KeyEvent_dgLalt (s : HookState) (k : EmitKind) (v c : Nat) :
    (KeyEvent s k v c).dgLalt = s.dgLalt := rfl

@[simp] theorem KeyEvent_dgRalt (s : HookState) (k : EmitKind) (v c : Nat) :
    (KeyEvent s k v c).dgRalt = s.dgRalt := rfl

@[simp] theorem KeyEvent_altTab (s : HookState) (k : EmitKind) (v c : Nat) :
    (KeyEvent s k v c).altTabMenuVisible = s.altTabMenuVisible := rfl

theorem KeyEvent_emissions (s : HookState) (k : EmitKind) (v c : Nat) :
    (KeyEvent s k v c).emissions =
      s.emissions ++ [{ kind := k, vk := v, sc := c, ignoreTag := true }] := rfl

@[simp] theorem stk_verdict (cfg : Cfg) (s : HookState) (sc : Nat) (e : Event) :
    (SuppressThisKeyFunc cfg s sc e).2 = Verdict.suppress := by
  unfold SuppressThisKeyFunc; split <;> rfl

@[simp] theorem stk_pPrefixKey (cfg : Cfg) (s : HookState) (sc : Nat) (e : Event) :
    (SuppressThisKeyFunc cfg s sc e).1.pPrefixKey = s.pPrefixKey := by
  unfold SuppressThisKeyFunc
  split <;> simp

@[simp] theorem stk_kvkRt (cfg : Cfg) (s : HookState) (sc : Nat) (e : Event) :
    (SuppressThisKeyFunc cfg s sc e).1.kvkRt = s.kvkRt := by
  unfold SuppressThisKeyFunc
  split <;> simp

@[simp] theorem stk_kscRt (cfg : Cfg) (s : HookState) (sc : Nat) (e : Event) :
    (SuppressThisKeyFunc cfg s sc e).1.kscRt = s.kscRt := by
  unfold SuppressThisKeyFunc
  split <;> simp

@[simp] theorem stk_dgLwin (cfg : Cfg) (s : HookState) (sc : Nat) (e : Event) :
    (SuppressThisKeyFunc cfg s sc e).1.dgLwin = s.dgLwin := by
  unfold SuppressThisKeyFunc
  split <;> simp

@[simp] theorem stk_dgRwin (cfg : Cfg) (s : HookState) (sc : Nat) (e : Event) :
    (SuppressThisKeyFunc cfg s sc e).1.dgRwin = s.dgRwin := by
  unfold SuppressThisKeyFunc
  split <;> simp

@[simp] theorem stk_dgLalt (cfg : Cfg) (s : HookState) (sc : Nat) (e : Event) :
    (SuppressThisKeyFunc cfg s sc e).1.dgLalt = s.dgLalt := by
  unfold SuppressThisKeyFunc
  split <;> simp

@[simp] theorem stk_dgRalt (cfg : Cfg) (s : HookState) (sc : Nat) (e : Event) :
    (SuppressThisKeyFunc cfg s sc e).1.dgRalt = s.dgRalt := by
  unfold SuppressThisKeyFunc
  split <;> simp

/-- The emissions of SuppressThisKeyFunc: exactly the Numlock restoration
quad UP, DOWN, UP, DOWN (ignore-tagged) for a non-ignored NUMLOCK key-down,
nothing otherwise. -/
theorem stk_emissions (cfg : Cfg) (s : HookState) (sc : Nat) (e : Event) :
    (SuppressThisKeyFunc cfg s sc e).1.emissions =
      s.emissions ++
        (if e.vk == VK_NUMLOCK && !e.keyUp && !e.ignored then
          [{ kind := EmitKind.keyUp, vk := VK_NUMLOCK, sc := 0, ignoreTag := true },
           { kind := EmitKind.keyDown, vk := VK_NUMLOCK, sc := 0, ignoreTag := true },
           { kind := EmitKind.keyUp, vk := VK_NUMLOCK, sc := 0, ignoreTag := true },
           { kind := EmitKind.keyDown, vk := VK_NUMLOCK, sc := 0, ignoreTag := true }]
        else []) := by
  unfold SuppressThisKeyFunc
  split <;> simp [KeyEvent]

@[simp] theorem keyRtOf_stk (cfg : Cfg) (s : HookState) (sc : Nat) (e : Event)
    (k : KeyRef) :
    keyRtOf (SuppressThisKeyFunc cfg s sc e).1 k = keyRtOf s k := by
  cases k <;> simp [keyRtOf]

@[simp] theorem disguiseBlock_pPrefixKey (cfg : Cfg) (s : HookState) (sc : Nat)
    (e : Event) :
    (disguiseBlock cfg s sc e).1.pPrefixKey = s.pPrefixKey := by
  unfold disguiseBlock
  dsimp only
  (repeat' split) <;> simp

@[simp] theorem disguiseBlock_verdict (cfg : Cfg) (s : HookState) (sc : Nat)
    (e : Event) :
    (disguiseBlock cfg s sc e).2 = Verdict.suppress := by
  unfold disguiseBlock
  dsimp only
  simp

/-- The disguise block's emissions on a key-up: exactly SHIFT down, this
key's up, SHIFT up (the suppress tail adds nothing, since the event is not
a NUMLOCK key-down). -/
theorem disguiseBlock_emissions (cfg : Cfg) (s : HookState) (sc : Nat)
    (e : Event) (hup : e.keyUp = true) :
    (disguiseBlock cfg s sc e).1.emissions =
      s.emissions ++
        [{ kind := EmitKind.keyDown, vk := VK_SHIFT, sc := 0, ignoreTag := true },
         { kind := EmitKind.keyUp, vk := e.vk, sc := sc, ignoreTag := true },
         { kind := EmitKind.keyUp, vk := VK_SHIFT, sc := 0, ignoreTag := true }] := by
  unfold disguiseBlock
  dsimp only
  rw [stk_emissions]
  (repeat' split) <;> simp_all [KeyEvent]

theorem disguiseBlock_clear_lwin (cfg : Cfg) (s : HookState) (sc : Nat)
    (e : Event) (hvk : e.vk = VK_LWIN) :
    (disguiseBlock cfg s sc e).1.dgLwin = false := by
  unfold disguiseBlock
  dsimp only
  simp [hvk]

theorem disguiseBlock_clear_rwin (cfg : Cfg) (s : HookState) (sc : Nat)
    (e : Event) (hvk : e.vk = VK_RWIN) :
    (disguiseBlock cfg s sc e).1.dgRwin = false := by
  unfold disguiseBlock
  dsimp only
  simp [hvk, VK_LWIN, VK_RWIN]

theorem disguiseBlock_clear_lalt (cfg : Cfg) (s : HookState) (sc : Nat)
    (e : Event) (hvk : e.vk = VK_LMENU ∨ e.vk = VK_MENU) :
    (disguiseBlock cfg s sc e).1.dgLalt = false := by
  unfold disguiseBlock
  dsimp only
  rcases hvk with hvk | hvk <;>
    simp [hvk, VK_LWIN, VK_RWIN, VK_LMENU, VK_MENU]

theorem disguiseBlock_clear_ralt (cfg : Cfg) (s : HookState) (sc : Nat)
    (e : Event) (hvk : e.vk = VK_RMENU) :
    (disguiseBlock cfg s sc e).1.dgRalt = false := by
  unfold disguiseBlock
  dsimp only
  simp [hvk, VK_LWIN, VK_RWIN, VK_LMENU, VK_MENU, VK_RMENU]

@[simp] theorem winLReset_pPrefixKey (cfg : Cfg) (s : HookState) (e : Event) :
    (winLReset cfg s e).pPrefixKey = s.pPrefixKey := by
  unfold winLReset; split <;> simp [setPhysKey]

@[simp] theorem winLReset_kvkRt (cfg : Cfg) (s : HookState) (e : Event) :
    (winLReset cfg s e).kvkRt = s.kvkRt := by
  unfold winLReset; split <;> simp [setPhysKey]

@[simp] theorem winLReset_kscRt (cfg : Cfg) (s : HookState) (e : Event) :
    (winLReset cfg s e).kscRt = s.kscRt := by
  unfold winLReset; split <;> simp [setPhysKey]

@[simp] theorem winLReset_emissions (cfg : Cfg) (s : HookState) (e : Event) :
    (winLReset cfg s e).emissions = s.emissions := by
  unfold winLReset; split <;> simp [setPhysKey]

@[simp] theorem winLReset_dgLwin (cfg : Cfg) (s : HookState) (e : Event) :
    (winLReset cfg s e).dgLwin = s.dgLwin := by
  unfold winLReset; split <;> simp [setPhysKey]

@[simp] theorem winLReset_dgRwin (cfg : Cfg) (s : HookState) (e : Event) :
    (winLReset cfg s e).dgRwin = s.dgRwin := by
  unfold winLReset; split <;> simp [setPhysKey]

@[simp] theorem winLReset_dgLalt (cfg : Cfg) (s : HookState) (e : Event) :
    (winLReset cfg s e).dgLalt = s.dgLalt := by
  unfold winLReset; split <;> simp [setPhysKey]

@[simp] theorem winLReset_dgRalt (cfg : Cfg) (s : HookState) (e : Event) :
    (winLReset cfg s e).dgRalt = s.dgRalt := by
  unfold winLReset; split <;> simp [setPhysKey]

@[simp] theorem winLReset_altTab (cfg : Cfg) (s : HookState) (e : Event) :
    (winLReset cfg s e).altTabMenuVisible = s.altTabMenuVisible := by
  unfold winLReset; split <;> simp [setPhysKey]

@[simp] theorem cadReset_pPrefixKey (cfg : Cfg) (s : HookState) (e : Event) :
    (cadReset cfg s e).pPrefixKey = s.pPrefixKey := by
  unfold cadReset; split <;> simp [setPhysKey]

@[simp] theorem cadReset_kvkRt (cfg : Cfg) (s : HookState) (e : Event) :
    (cadReset cfg s e).kvkRt = s.kvkRt := by
  unfold cadReset; split <;> simp [setPhysKey]

@[simp] theorem cadReset_kscRt (cfg : Cfg) (s : HookState) (e : Event) :
    (cadReset cfg s e).kscRt = s.kscRt := by
  unfold cadReset; split <;> simp [setPhysKey]

@[simp] theorem cadReset_emissions (cfg : Cfg) (s : HookState) (e : Event) :
    (cadReset cfg s e).emissions = s.emissions := by
  unfold cadReset; split <;> simp [setPhysKey]

@[simp] theorem cadReset_dgLwin (cfg : Cfg) (s : HookState) (e : Event) :
    (cadReset cfg s e).dgLwin = s.dgLwin := by
  unfold cadReset; split <;> simp [setPhysKey]

@[simp] theorem cadReset_dgRwin (cfg : Cfg) (s : HookState) (e : Event) :
    (cadReset cfg s e).dgRwin = s.dgRwin := by
  unfold cadReset; split <;> simp [setPhysKey]

@[simp] theorem cadReset_dgLalt (cfg : Cfg) (s : HookState) (e : Event) :
    (cadReset cfg s e).dgLalt = s.dgLalt := by
  unfold cadReset; split <;> simp [setPhysKey]

@[simp] theorem cadReset_dgRalt (cfg : Cfg) (s : HookState) (e : Event) :
    (cadReset cfg s e).dgRalt = s.dgRalt := by
  unfold cadReset; split <;> simp [setPhysKey]

@[simp] theorem cadReset_altTab (cfg : Cfg) (s : HookState) (e : Event) :
    (cadReset cfg s e).altTabMenuVisible = s.altTabMenuVisible := by
  unfold cadReset; split <;> simp [setPhysKey]

@[simp] theorem altTabClear_pPrefixKey (s : HookState) (e : Event) (et : EvType) :
    (altTabClearOnAltUp s e et).pPrefixKey = s.pPrefixKey := by
  unfold altTabClearOnAltUp; split <;> rfl

@[simp] theorem altTabClear_kvkRt (s : HookState) (e : Event) (et : EvType) :
    (altTabClearOnAltUp s e et).kvkRt = s.kvkRt := by
  unfold altTabClearOnAltUp; split <;> rfl

@[simp] theorem altTabClear_kscRt (s : HookState) (e : Event) (et : EvType) :
    (altTabClearOnAltUp s e et).kscRt = s.kscRt := by
  unfold altTabClearOnAltUp; split <;> rfl

@[simp] theorem altTabClear_emissions (s : HookState) (e : Event) (et : EvType) :
    (altTabClearOnAltUp s e et).emissions = s.emissions := by
  unfold altTabClearOnAltUp; split <;> rfl

@[simp] theorem altTabClear_dgLwin (s : HookState) (e : Event) (et : EvType) :
    (altTabClearOnAltUp s e et).dgLwin = s.dgLwin := by
  unfold altTabClearOnAltUp; split <;> rfl

@[simp] theorem altTabClear_dgRwin (s : HookState) (e : Event) (et : EvType) :
    (altTabClearOnAltUp s e et).dgRwin = s.dgRwin := by
  unfold altTabClearOnAltUp; split <;> rfl

@[simp] theorem altTabClear_dgLalt (s : HookState) (e : Event) (et : EvType) :
    (altTabClearOnAltUp s e et).dgLalt = s.dgLalt := by
  unfold altTabClearOnAltUp; split <;> rfl

@[simp] theorem altTabClear_dgRalt (s : HookState) (e : Event) (et : EvType) :
    (altTabClearOnAltUp s e et).dgRalt = s.dgRalt := by
  unfold altTabClearOnAltUp; split <;> rfl

@[simp] theorem allowIt_pPrefixKey (cfg : Cfg) (s : HookState) (sc : Nat)
    (e : Event) (et : EvType) (dwa : Bool) :
    (AllowIt cfg s sc e et dwa).1.pPrefixKey = s.pPrefixKey := by
  unfold AllowIt
  (repeat' split) <;> simp [setPhysKey]

@[simp] theorem allowIt_kvkRt (cfg : Cfg) (s : HookState) (sc : Nat)
    (e : Event) (et : EvType) (dwa : Bool) :
    (AllowIt cfg s sc e et dwa).1.kvkRt = s.kvkRt := by
  unfold AllowIt
  (repeat' split) <;> simp [setPhysKey]

@[simp] theorem allowIt_kscRt (cfg : Cfg) (s : HookState) (sc : Nat)
    (e : Event) (et : EvType) (dwa : Bool) :
    (AllowIt cfg s sc e et dwa).1.kscRt = s.kscRt := by
  unfold AllowIt
  (repeat' split) <;> simp [setPhysKey]

/-- When the force-toggle gate does not fire and DisguiseWinAlt is off,
AllowIt always passes the event through. -/
@[simp] theorem keyRtOf_allowIt (cfg : Cfg) (s : HookState) (sc : Nat)
    (e : Event) (et : EvType) (d : Bool) (k : KeyRef) :
    keyRtOf (AllowIt cfg s sc e et d).1 k = keyRtOf s k := by
  cases k <;> simp [keyRtOf]

theorem allowIt_pass (cfg : Cfg) (s : HookState) (sc : Nat) (e : Event)
    (et : EvType)
    (h : e.ignored = true ∨ toggleBlocks cfg (cfg.kvkCfg e.vk) = false) :
    (AllowIt cfg s sc e et false).2 = Verdict.pass := by
  unfold AllowIt
  have hc : (!e.ignored && toggleBlocks cfg (cfg.kvkCfg e.vk)) = false := by
    rcases h with h | h <;> simp [h]
  rw [hc]
  simp only [Bool.false_eq_true, if_false]
  (repeat' split) <;> simp_all

/-- When the force-toggle gate fires (non-ignored event, force-toggle present
and not NEUTRAL), AllowIt suppresses. -/
theorem allowIt_toggle_suppress (cfg : Cfg) (s : HookState) (sc : Nat)
    (e : Event) (et : EvType) (dwa : Bool)
    (hig : e.ignored = false)
    (htb : toggleBlocks cfg (cfg.kvkCfg e.vk) = true) :
    (AllowIt cfg s sc e et dwa).2 = Verdict.suppress := by
  unfold AllowIt
  rw [hig, htb]
  simp

@[simp] theorem padStateStep_pPrefixKey (s : HookState) (e : Event) (sc : Nat) :
    (padStateStep s e sc).pPrefixKey = s.pPrefixKey := by
  unfold padStateStep
  (repeat' split) <;> simp [setPad]

@[simp] theorem padStateStep_kvkRt (s : HookState) (e : Event) (sc : Nat) :
    (padStateStep s e sc).kvkRt = s.kvkRt := by
  unfold padStateStep
  (repeat' split) <;> simp [setPad]

@[simp] theorem padStateStep_kscRt (s : HookState) (e : Event) (sc : Nat) :
    (padStateStep s e sc).kscRt = s.kscRt := by
  unfold padStateStep
  (repeat' split) <;> simp [setPad]

@[simp] theorem padStateStep_emissions (s : HookState) (e : Event) (sc : Nat) :
    (padStateStep s e sc).emissions = s.emissions := by
  unfold padStateStep
  (repeat' split) <;> simp [setPad]

@[simp] theorem padStateStep_dgLwin (s : HookState) (e : Event) (sc : Nat) :
    (padStateStep s e sc).dgLwin = s.dgLwin := by
  unfold padStateStep
  (repeat' split) <;> simp [setPad]

@[simp] theorem padStateStep_dgRwin (s : HookState) (e : Event) (sc : Nat) :
    (padStateStep s e sc).dgRwin = s.dgRwin := by
  unfold padStateStep
  (repeat' split) <;> simp [setPad]

@[simp] theorem padStateStep_dgLalt (s : HookState) (e : Event) (sc : Nat) :
    (padStateStep s e sc).dgLalt = s.dgLalt := by
  unfold padStateStep
  (repeat' split) <;> simp [setPad]

@[simp] theorem padStateStep_dgRalt (s : HookState) (e : Event) (sc : Nat) :
    (padStateStep s e sc).dgRalt = s.dgRalt := by
  unfold padStateStep
  (repeat' split) <;> simp [setPad]

@[simp] theorem altTabVisibleStep_pPrefixKey (s : HookState) (e : Event) :
    (altTabVisibleStep s e).pPrefixKey = s.pPrefixKey := by
  unfold altTabVisibleStep
  split <;> rfl

@[simp] theorem altTabVisibleStep_kvkRt (s : HookState) (e : Event) :
    (altTabVisibleStep s e).kvkRt = s.kvkRt := by
  unfold altTabVisibleStep
  split <;> rfl

@[simp] theorem altTabVisibleStep_kscRt (s : HookState) (e : Event) :
    (altTabVisibleStep s e).kscRt = s.kscRt := by
  unfold altTabVisibleStep
  split <;> rfl

@[simp] theorem altTabVisibleStep_emissions (s : HookState) (e : Event) :
    (altTabVisibleStep s e).emissions = s.emissions := by
  unfold altTabVisibleStep
  split <;> rfl

@[simp] theorem altTabVisibleStep_dgLwin (s : HookState) (e : Event) :
    (altTabVisibleStep s e).dgLwin = s.dgLwin := by
  unfold altTabVisibleStep
  split <;> rfl

@[simp] theorem altTabVisibleStep_dgRwin (s : HookState) (e : Event) :
    (altTabVisibleStep s e).dgRwin = s.dgRwin := by
  unfold altTabVisibleStep
  split <;> rfl

@[simp] theorem altTabVisibleStep_dgLalt (s : HookState) (e : Event) :
    (altTabVisibleStep s e).dgLalt = s.dgLalt := by
  unfold altTabVisibleStep
  split <;> rfl

@[simp] theorem altTabVisibleStep_dgRalt (s : HookState) (e : Event) :
    (altTabVisibleStep s e).dgRalt = s.dgRalt := by
  unfold altTabVisibleStep
  split <;> rfl

@[simp] theorem physKeyStep_pPrefixKey (cfg : Cfg) (s : HookState) (e : Event) :
    (physKeyStep cfg s e).pPrefixKey = s.pPrefixKey := by
  unfold physKeyStep
  (repeat' split) <;> simp [setPhysKey, apply_ite]

@[simp] theorem physKeyStep_kvkRt (cfg : Cfg) (s : HookState) (e : Event) :
    (physKeyStep cfg s e).kvkRt = s.kvkRt := by
  unfold physKeyStep
  (repeat' split) <;> simp [setPhysKey, apply_ite]

@[simp] theorem physKeyStep_kscRt (cfg : Cfg) (s : HookState) (e : Event) :
    (physKeyStep cfg s e).kscRt = s.kscRt := by
  unfold physKeyStep
  (repeat' split) <;> simp [setPhysKey, apply_ite]

@[simp] theorem physKeyStep_emissions (cfg : Cfg) (s : HookState) (e : Event) :
    (physKeyStep cfg s e).emissions = s.emissions := by
  unfold physKeyStep
  (repeat' split) <;> simp [setPhysKey, apply_ite]

@[simp] theorem physKeyStep_dgLwin (cfg : Cfg) (s : HookState) (e : Event) :
    (physKeyStep cfg s e).dgLwin = s.dgLwin := by
  unfold physKeyStep
  (repeat' split) <;> simp [setPhysKey, apply_ite]

@[simp] theorem physKeyStep_dgRwin (cfg : Cfg) (s : HookState) (e : Event) :
    (physKeyStep cfg s e).dgRwin = s.dgRwin := by
  unfold physKeyStep
  (repeat' split) <;> simp [setPhysKey, apply_ite]

@[simp] theorem physKeyStep_dgLalt (cfg : Cfg) (s : HookState) (e : Event) :
    (physKeyStep cfg s e).dgLalt = s.dgLalt := by
  unfold physKeyStep
  (repeat' split) <;> simp [setPhysKey, apply_ite]

@[simp] theorem physKeyStep_dgRalt (cfg : Cfg) (s : HookState) (e : Event) :
    (physKeyStep cfg s e).dgRalt = s.dgRalt := by
  unfold physKeyStep
  (repeat' split) <;> simp [setPhysKey, apply_ite]

theorem findVkMod_mem (s : HookState) (l : List (Nat × Nat)) (w idf : Nat)
    (h : findVkMod s l = some (w, idf)) : (w, idf) ∈ l := by
  induction l with
  | nil => simp [findVkMod] at h
  | cons hd tl ih =>
    obtain ⟨a, b⟩ := hd
    unfold findVkMod at h
    split at h
    · simp_all
    · simpa using Or.inr (ih h)

theorem findScMod_mem (s : HookState) (l : List (Nat × Nat)) (c idf : Nat)
    (h : findScMod s l = some (c, idf)) : (c, idf) ∈ l := by
  induction l with
  | nil => simp [findScMod] at h
  | cons hd tl ih =>
    obtain ⟨a, b⟩ := hd
    unfold findScMod at h
    split at h
    · simp_all
    · simpa using Or.inr (ih h)

@[simp] theorem noHotkeyExit_pPrefixKey (cfg : Cfg) (s : HookState) (sc : Nat)
    (e : Event) (et : EvType) (tk : KeyRef) :
    (noHotkeyExit cfg s sc e et tk).1.pPrefixKey = s.pPrefixKey := by
  unfold noHotkeyExit
  (repeat' split) <;> (try simp) <;> (repeat' split) <;> (try simp)

@[simp] theorem markPrefixUsedForHotkey_pPrefixKey (s : HookState) :
    (markPrefixUsedForHotkey s).pPrefixKey = s.pPrefixKey := by
  unfold markPrefixUsedForHotkey
  split <;> simp

@[simp] theorem markHeldPrefixAsUsed_pPrefixKey (cfg : Cfg) (s : HookState)
    (tk : KeyRef) (e : Event) :
    (markHeldPrefixAsUsed cfg s tk e).pPrefixKey = s.pPrefixKey := by
  unfold markHeldPrefixAsUsed
  (repeat' split) <;> simp

@[simp] theorem afterSwitch_pPrefixKey (cfg : Cfg) (s : HookState) (sc : Nat)
    (e : Event) (tk : KeyRef) (nos : Bool) :
    (afterSwitch cfg s sc e tk nos).1.pPrefixKey = s.pPrefixKey := by
  unfold afterSwitch
  (repeat' split) <;>
    simp only [stk_pPrefixKey, allowIt_pPrefixKey, KeyEvent_pPrefixKey,
      keyEventIf_pPrefixKey, setKeyRt_pPrefixKey, markPrefixUsedForHotkey_pPrefixKey]


@[simp] theorem altTabNavigate_pPrefixKey (cfg : Cfg) (s : HookState) (sc : Nat)
    (e : Event) (tk : KeyRef) (id : Nat) (nos : Bool) :
    (altTabNavigate cfg s sc e tk id nos).1.pPrefixKey = s.pPrefixKey := by
  simp only [altTabNavigate, afterSwitch_pPrefixKey, keyEventIf_pPrefixKey,
    KeyEvent_pPrefixKey]

@[simp] theorem menuDismissBlock_pPrefixKey (cfg : Cfg) (s : HookState) (sc : Nat)
    (e : Event) (tk : KeyRef) (nos : Bool) :
    (menuDismissBlock cfg s sc e tk nos).1.pPrefixKey = s.pPrefixKey := by
  simp only [menuDismissBlock, afterSwitch_pPrefixKey, keyEventIf_pPrefixKey,
    KeyEvent_pPrefixKey]

@[simp] theorem menuOpenBlock_pPrefixKey (cfg : Cfg) (s : HookState) (sc : Nat)
    (e : Event) (tk : KeyRef) (nos : Bool) :
    (menuOpenBlock cfg s sc e tk nos).1.pPrefixKey = s.pPrefixKey := by
  simp only [menuOpenBlock, afterSwitch_pPrefixKey, keyEventIf_pPrefixKey,
    KeyEvent_pPrefixKey]

@[simp] theorem hotkeySwitch_pPrefixKey (cfg : Cfg) (s : HookState) (sc : Nat)
    (e : Event) (et : EvType) (tk : KeyRef) (id : Nat) (nos : Bool) :
    (hotkeySwitch cfg s sc e et tk id nos).1.pPrefixKey = s.pPrefixKey := by
  unfold hotkeySwitch
  (repeat' split) <;>
    simp only [allowIt_pPrefixKey, menuDismissBlock_pPrefixKey,
      altTabNavigate_pPrefixKey, menuOpenBlock_pPrefixKey, afterSwitch_pPrefixKey]

@[simp] theorem afterLookup_pPrefixKey (cfg : Cfg) (s : HookState) (sc : Nat)
    (e : Event) (et : EvType) (tk : KeyRef) (id : Nat) (nos : Bool) :
    (afterLookup cfg s sc e et tk id nos).1.pPrefixKey = s.pPrefixKey := by
  unfold afterLookup
  dsimp only
  (repeat' split) <;> simp only [hotkeySwitch_pPrefixKey]

@[simp] theorem maskLookup_pPrefixKey (cfg : Cfg) (s : HookState) (sc : Nat)
    (e : Event) (et : EvType) (tk : KeyRef) :
    (maskLookup cfg s sc e et tk).1.pPrefixKey = s.pPrefixKey := by
  unfold maskLookup
  dsimp only
  (repeat' split) <;> simp only [noHotkeyExit_pPrefixKey, afterLookup_pPrefixKey]

@[simp] theorem altTabInline_pPrefixKey (cfg : Cfg) (s : HookState) (sc : Nat)
    (e : Event) (tk bound : KeyRef) (id : Nat) :
    (altTabInline cfg s sc e tk bound id).1.pPrefixKey = s.pPrefixKey := by
  simp only [altTabInline, apply_ite, ite_self, stk_pPrefixKey, keyEventIf_pPrefixKey,
    setKeyRtIf_pPrefixKey, setKeyRt_pPrefixKey, KeyEvent_pPrefixKey]

/-- Every way Case 4 can leave the prefix slot: unchanged, or bound to the
first held entry of the suffix's ModifierVK list, or of its ModifierSC
list. -/
theorem case4_pPrefixKey (cfg : Cfg) (s : HookState) (sc : Nat) (e : Event)
    (et : EvType) (tk : KeyRef) :
    (case4 cfg s sc e et tk).1.pPrefixKey = s.pPrefixKey ∨
    (∃ w idf, (w, idf) ∈ (keyCfgOf cfg tk).modifierVK ∧
      (case4 cfg s sc e et tk).1.pPrefixKey = some (KeyRef.vk w)) ∨
    (∃ c idf, (c, idf) ∈ (keyCfgOf cfg tk).modifierSC ∧
      (case4 cfg s sc e et tk).1.pPrefixKey = some (KeyRef.sc c)) := by
  unfold case4
  split
  · rcases hvk : findVkMod s (keyCfgOf cfg tk).modifierVK with _ | ⟨w, idf⟩
    · rcases hsc : findScMod s (keyCfgOf cfg tk).modifierSC with _ | ⟨c, idf⟩
      · left
        simp only [hvk, hsc]
        simp
      · refine Or.inr (Or.inr ⟨c, idf, findScMod_mem s _ c idf hsc, ?_⟩)
        simp only [hvk, hsc]
        split <;> simp
    · refine Or.inr (Or.inl ⟨w, idf, findVkMod_mem s _ w idf hvk, ?_⟩)
      simp only [hvk]
      split <;> simp
  · exact Or.inl (by simp)

@[simp] theorem releasePutDownMods_pPrefixKey (s : HookState) (tk : KeyRef) :
    (releasePutDownMods s tk).pPrefixKey = s.pPrefixKey := by
  unfold releasePutDownMods
  dsimp only
  (repeat' split) <;> simp

/-- Every way the Case-3 body can leave the prefix slot: unchanged from its
input, or (via the fall-through into Case 4) bound from the suffix's
modifier lists. -/
theorem case3After_pPrefixKey (cfg : Cfg) (s1 : HookState) (sc : Nat) (e : Event)
    (et : EvType) (tk : KeyRef) (w : Bool) :
    (case3After cfg s1 sc e et tk w).1.pPrefixKey = s1.pPrefixKey ∨
    (∃ a idf, (a, idf) ∈ (keyCfgOf cfg tk).modifierVK ∧
      (case3After cfg s1 sc e et tk w).1.pPrefixKey = some (KeyRef.vk a)) ∨
    (∃ c idf, (c, idf) ∈ (keyCfgOf cfg tk).modifierSC ∧
      (case3After cfg s1 sc e et tk w).1.pPrefixKey = some (KeyRef.sc c)) := by
  unfold case3After
  dsimp only
  (repeat' split) <;>
    first
    | (left; simp)
    | (rcases case4_pPrefixKey cfg (releasePutDownMods s1 tk) sc e et tk with
        h | ⟨a, idf, hm, h⟩ | ⟨c, idf, hm, h⟩
       · left
         rw [h, releasePutDownMods_pPrefixKey]
       · exact Or.inr (Or.inl ⟨a, idf, hm, h⟩)
       · exact Or.inr (Or.inr ⟨c, idf, hm, h⟩))

/-- Every way Case 3 can leave the prefix slot: unchanged, cleared, or (via
the fall-through into Case 4) bound from the suffix's modifier lists. -/
theorem case3_pPrefixKey (cfg : Cfg) (s : HookState) (sc : Nat) (e : Event)
    (et : EvType) (tk : KeyRef) (w : Bool) :
    (case3 cfg s sc e et tk w).1.pPrefixKey = s.pPrefixKey ∨
    (case3 cfg s sc e et tk w).1.pPrefixKey = none ∨
    (∃ a idf, (a, idf) ∈ (keyCfgOf cfg tk).modifierVK ∧
      (case3 cfg s sc e et tk w).1.pPrefixKey = some (KeyRef.vk a)) ∨
    (∃ c idf, (c, idf) ∈ (keyCfgOf cfg tk).modifierSC ∧
      (case3 cfg s sc e et tk w).1.pPrefixKey = some (KeyRef.sc c)) := by
  unfold case3
  rcases case3After_pPrefixKey cfg
      (if s.pPrefixKey == some tk then { s with pPrefixKey := none } else s)
      sc e et tk w with h | ⟨a, idf, hm, h⟩ | ⟨c, idf, hm, h⟩
  · rw [h]
    split
    · right; left; rfl
    · left; rfl
  · exact Or.inr (Or.inr (Or.inl ⟨a, idf, hm, h⟩))
  · exact Or.inr (Or.inr (Or.inr ⟨c, idf, hm, h⟩))

/-- Every way Cases 1 through 4 can leave the prefix slot: unchanged,
cleared, installed as this event's key (possible only under the Case-1
guard: no prefix was active or this key is not also a suffix), or bound
from the suffix's modifier lists in Case 4. -/
theorem dispatchCases_pPrefixKey (cfg : Cfg) (s3 : HookState) (sc : Nat)
    (e : Event) (et : EvType) (tk : KeyRef) (wd dp : Bool) :
    (dispatchCases cfg s3 sc e et tk wd dp).1.pPrefixKey = s3.pPrefixKey ∨
    (dispatchCases cfg s3 sc e et tk wd dp).1.pPrefixKey = none ∨
    ((dispatchCases cfg s3 sc e et tk wd dp).1.pPrefixKey = some tk ∧
      (s3.pPrefixKey = none ∨ (keyCfgOf cfg tk).usedAsSuffix = false)) ∨
    (∃ a idf, (a, idf) ∈ (keyCfgOf cfg tk).modifierVK ∧
      (dispatchCases cfg s3 sc e et tk wd dp).1.pPrefixKey = some (KeyRef.vk a)) ∨
    (∃ c idf, (c, idf) ∈ (keyCfgOf cfg tk).modifierSC ∧
      (dispatchCases cfg s3 sc e et tk wd dp).1.pPrefixKey = some (KeyRef.sc c)) := by
  unfold dispatchCases
  split
  · rename_i h
    simp only [Bool.and_eq_true, Bool.or_eq_true, beq_iff_eq,
      Bool.not_eq_true'] at h
    refine Or.inr (Or.inr (Or.inl ⟨?_, h.2⟩))
    split <;> simp
  · split
    · split <;> (left; simp)
    · split
      · rcases case3_pPrefixKey cfg s3 sc e et tk wd with
          h | h | ⟨a, idf, hm, h⟩ | ⟨c, idf, hm, h⟩
        · exact Or.inl h
        · exact Or.inr (Or.inl h)
        · exact Or.inr (Or.inr (Or.inr (Or.inl ⟨a, idf, hm, h⟩)))
        · exact Or.inr (Or.inr (Or.inr (Or.inr ⟨c, idf, hm, h⟩)))
      · rcases case4_pPrefixKey cfg s3 sc e et tk with
          h | ⟨a, idf, hm, h⟩ | ⟨c, idf, hm, h⟩
        · exact Or.inl h
        · exact Or.inr (Or.inr (Or.inr (Or.inl ⟨a, idf, hm, h⟩)))
        · exact Or.inr (Or.inr (Or.inr (Or.inr ⟨c, idf, hm, h⟩)))

/-- Every way the whole dispatcher can leave the prefix slot, phrased
relative to the state it received. -/
theorem dispatchMain_pPrefixKey (cfg : Cfg) (s : HookState) (sc : Nat)
    (e : Event) (et : EvType) :
    (dispatchMain cfg s sc e et).1.pPrefixKey = s.pPrefixKey ∨
    (dispatchMain cfg s sc e et).1.pPrefixKey = none ∨
    ((dispatchMain cfg s sc e et).1.pPrefixKey = some (hookThisKey cfg sc e.vk) ∧
      (s.pPrefixKey = none ∨
        (keyCfgOf cfg (hookThisKey cfg sc e.vk)).usedAsSuffix = false)) ∨
    (∃ a idf,
      (a, idf) ∈ (keyCfgOf cfg (hookThisKey cfg sc e.vk)).modifierVK ∧
      (dispatchMain cfg s sc e et).1.pPrefixKey = some (KeyRef.vk a)) ∨
    (∃ c idf,
      (c, idf) ∈ (keyCfgOf cfg (hookThisKey cfg sc e.vk)).modifierSC ∧
      (dispatchMain cfg s sc e et).1.pPrefixKey = some (KeyRef.sc c)) := by
  unfold dispatchMain
  dsimp only
  split
  · split <;> (left; simp)
  · split
    · left; simp
    · have hS3 :
        (setKeyRt (setKeyRtIf e.keyUp
            (markHeldPrefixAsUsed cfg s (hookThisKey cfg sc e.vk) e)
            (hookThisKey cfg sc e.vk)
            (fun r => { r with downPerformedAction := false }))
          (hookThisKey cfg sc e.vk)
          (fun r => { r with isDown := !e.keyUp })).pPrefixKey
          = s.pPrefixKey := by simp
      rcases dispatchCases_pPrefixKey cfg
          (setKeyRt (setKeyRtIf e.keyUp
              (markHeldPrefixAsUsed cfg s (hookThisKey cfg sc e.vk) e)
              (hookThisKey cfg sc e.vk)
              (fun r => { r with downPerformedAction := false }))
            (hookThisKey cfg sc e.vk)
            (fun r => { r with isDown := !e.keyUp }))
          sc e et (hookThisKey cfg sc e.vk)
          (keyRtOf (markHeldPrefixAsUsed cfg s (hookThisKey cfg sc e.vk) e)
            (hookThisKey cfg sc e.vk)).isDown
          (keyRtOf (markHeldPrefixAsUsed cfg s (hookThisKey cfg sc e.vk) e)
            (hookThisKey cfg sc e.vk)).downPerformedAction with
        h | h | ⟨h1, h2⟩ | ⟨a, idf, hm, h⟩ | ⟨c, idf, hm, h⟩
      · left; rw [h, hS3]
      · right; left; exact h
      · rw [hS3] at h2
        exact Or.inr (Or.inr (Or.inl ⟨h1, h2⟩))
      · exact Or.inr (Or.inr (Or.inr (Or.inl ⟨a, idf, hm, h⟩)))
      · exact Or.inr (Or.inr (Or.inr (Or.inr ⟨c, idf, hm, h⟩)))

/-- Every way one full hook invocation can leave the prefix slot, phrased
relative to the incoming state. -/
theorem llkp_pPrefixKey (cfg : Cfg) (s0 : HookState) (e : Event) :
    (LowLevelKeybdProc cfg s0 e).1.pPrefixKey = s0.pPrefixKey ∨
    (LowLevelKeybdProc cfg s0 e).1.pPrefixKey = none ∨
    ((LowLevelKeybdProc cfg s0 e).1.pPrefixKey
        = some (hookThisKey cfg (scNormalize cfg e) e.vk) ∧
      (s0.pPrefixKey = none ∨
        (keyCfgOf cfg (hookThisKey cfg (scNormalize cfg e) e.vk)).usedAsSuffix
          = false)) ∨
    (∃ a idf,
      (a, idf) ∈ (keyCfgOf cfg
        (hookThisKey cfg (scNormalize cfg e) e.vk)).modifierVK ∧
      (LowLevelKeybdProc cfg s0 e).1.pPrefixKey = some (KeyRef.vk a)) ∨
    (∃ c idf,
      (c, idf) ∈ (keyCfgOf cfg
        (hookThisKey cfg (scNormalize cfg e) e.vk)).modifierSC ∧
      (LowLevelKeybdProc cfg s0 e).1.pPrefixKey = some (KeyRef.sc c)) := by
  unfold LowLevelKeybdProc
  dsimp only
  have hpre :
      (physKeyStep cfg (altTabVisibleStep (padStateStep s0 e (scNormalize cfg e)) e) e).pPrefixKey
        = s0.pPrefixKey := by simp
  split
  · left; simp
  · split
    · left
      simp [hpre]
    · rcases dispatchMain_pPrefixKey cfg
          (physKeyStep cfg
            (altTabVisibleStep (padStateStep s0 e (scNormalize cfg e)) e) e)
          (scNormalize cfg e) e EvType.blank with
        h | h | ⟨h1, h2⟩ | ⟨a, idf, hm, h⟩ | ⟨c, idf, hm, h⟩
      · left; rw [h, hpre]
      · right; left; exact h
      · rw [hpre] at h2
        exact Or.inr (Or.inr (Or.inl ⟨h1, h2⟩))
      · exact Or.inr (Or.inr (Or.inr (Or.inl ⟨a, idf, hm, h⟩)))
      · exact Or.inr (Or.inr (Or.inr (Or.inr ⟨c, idf, hm, h⟩)))

/-! ## Claim theorems -/

/-- C5: suppressing a NUMLOCK key-down whose extra-info is not the engine's
self-synthesized ignore tag emits exactly four NUMLOCK key events in the
order UP, DOWN, UP, DOWN (each carrying the ignore tag); suppressing a
NUMLOCK key-up or a self-tagged NUMLOCK event emits nothing; the verdict is
suppress either way. -/
theorem c5_numlock_restoration_quad (cfg : Cfg) (s : HookState) (sc : Nat)
    (e : Event) :
    (SuppressThisKeyFunc cfg s sc e).1.emissions =
      s.emissions ++
        (if e.vk == VK_NUMLOCK && !e.keyUp && !e.ignored then
          [{ kind := EmitKind.keyUp, vk := VK_NUMLOCK, sc := 0, ignoreTag := true },
           { kind := EmitKind.keyDown, vk := VK_NUMLOCK, sc := 0, ignoreTag := true },
           { kind := EmitKind.keyUp, vk := VK_NUMLOCK, sc := 0, ignoreTag := true },
           { kind := EmitKind.keyDown, vk := VK_NUMLOCK, sc := 0, ignoreTag := true }]
        else []) ∧
    (SuppressThisKeyFunc cfg s sc e).2 = Verdict.suppress :=
  ⟨stk_emissions cfg s sc e, stk_verdict cfg s sc e⟩

/-- C7: for every event processed with suppressed = true, the
modifier-tracking update leaves logical_mods exactly unchanged. -/
theorem c7_suppressed_keeps_logical (s : HookState) (e : Event) (sc : Nat) :
    (UpdateModifierState s e sc true).logical = s.logical := by
  rcases h : modBranchParams e.vk sc with _ | ⟨bit, side, otherSide, neutral⟩ <;>
    simp [UpdateModifierState, h, applyModBranch_suppressed_logical]

/-- C6: after `LCTRL down, LMENU down, DELETE down` on Windows 2000, the
Ctrl-Alt-Del reset has zeroed the side entries physical_down[LCTRL] and
physical_down[RCTRL] (and the whole physical mask) but left the derived
neutral entry physical_down[CTRL] set, so the pair invariant
neutral == (left || right) is broken. -/
theorem c6_cad_reset_leaves_neutral_ctrl :
    c6s3.physical = 0 ∧
    c6s3.physKeys VK_CONTROL = true ∧
    c6s3.physKeys VK_LCONTROL = false ∧
    c6s3.physKeys VK_RCONTROL = false ∧
    c6s3.physKeys VK_CONTROL ≠ (c6s3.physKeys VK_LCONTROL || c6s3.physKeys VK_RCONTROL) :=
  ⟨rfl, rfl, rfl, rfl, by decide⟩

/-- C9: after `LWIN down, RWIN down`, logical_mods holds both WIN bits and
nothing else, yet the following `L down` on XP passes through with the
lock-screen reset NOT fired: the source compares logical_mods against
`MOD_RWIN | MOD_RWIN` where the comment calls for the both-WIN value, so
logical_mods, physical_mods and physical_down[LWIN] survive. -/
theorem c9_both_win_l_reset_missed :
    c9s2.logical = (MOD_LWIN ||| MOD_RWIN) ∧
    c9r3.2 = Verdict.pass ∧
    c9r3.1.logical = (MOD_LWIN ||| MOD_RWIN) ∧
    c9r3.1.physKeys VK_LWIN = true :=
  ⟨rfl, rfl, rfl, rfl⟩

/-- C10: for every event not tagged with the self-synthesized ignore
sentinel, if the key's record has a force-toggle pointer whose target state
is not NEUTRAL, AllowIt suppresses the event (key-downs and key-ups alike,
any disguise argument). -/
theorem c10_force_toggle_blocks_allow (cfg : Cfg) (s : HookState) (sc : Nat)
    (e : Event) (et : EvType) (dwa : Bool)
    (hig : e.ignored = false)
    (htb : toggleBlocks cfg (cfg.kvkCfg e.vk) = true) :
    (AllowIt cfg s sc e et dwa).2 = Verdict.suppress :=
  allowIt_toggle_suppress cfg s sc e et dwa hig htb

/-- C10 witness: a ScrollLock key-down whose force-toggle target is
ALWAYS_ON is suppressed by the allow path. -/
theorem c10_force_toggle_blocks_allow_witness :
    c10e.ignored = false ∧
    toggleBlocks c10cfg (c10cfg.kvkCfg c10e.vk) = true ∧
    (AllowIt c10cfg initState 0 c10e EvType.blank false).2 = Verdict.suppress :=
  ⟨rfl, by decide,
    c10_force_toggle_blocks_allow c10cfg initState 0 c10e EvType.blank false
      rfl (by decide)⟩

/-- C8 (amended): while the flag is not yet set, the heuristic turns
alt_tab_menu_is_visible on exactly when a TAB key-down is processed while at
least one ALT bit is set in logical_mods and no CTRL bit is set; the code
requires neither exactly one ALT bit nor that the TAB down be physical. -/
theorem c8_alt_tab_heuristic_amended (s : HookState) (e : Event)
    (hvis : s.altTabMenuVisible = false) :
    (altTabVisibleStep s e).altTabMenuVisible = true ↔
      (e.vk = VK_TAB ∧ e.keyUp = false ∧
       ((s.logical &&& MOD_LALT) ≠ 0 ∨ (s.logical &&& MOD_RALT) ≠ 0) ∧
       (s.logical &&& MOD_LCONTROL) = 0 ∧ (s.logical &&& MOD_RCONTROL) = 0) := by
  unfold altTabVisibleStep
  split
  · rename_i h
    simp only [Bool.and_eq_true, Bool.or_eq_true, Bool.not_eq_true',
      beq_iff_eq, bne_iff_ne, ne_eq] at h
    exact iff_of_true rfl (by tauto)
  · rename_i h
    rw [hvis]
    constructor
    · intro hf
      exact absurd hf (by simp)
    · intro hr
      exfalso
      apply h
      simp only [Bool.and_eq_true, Bool.or_eq_true, Bool.not_eq_true',
        beq_iff_eq, bne_iff_ne, ne_eq, hvis]
      tauto

/-- C8 witness: with only the left ALT bit set, a TAB key-down sets the
flag. -/
theorem c8_alt_tab_heuristic_amended_witness :
    c8sOne.altTabMenuVisible = false ∧
    (altTabVisibleStep c8sOne c8e).altTabMenuVisible = true :=
  ⟨rfl,
    (c8_alt_tab_heuristic_amended c8sOne c8e rfl).mpr
      ⟨rfl, rfl, Or.inl (by decide), by decide, by decide⟩⟩

/-- C8 counterexample to the literal claim: with BOTH ALT bits set (so not
exactly one), a TAB key-down still sets alt_tab_menu_is_visible. -/
theorem c8_both_alt_bits_counterexample :
    exactlyOneAltBitSet c8s.logical = false ∧
    c8s.altTabMenuVisible = false ∧
    (altTabVisibleStep c8s c8e).altTabMenuVisible = true := by
  decide

/-- C1: for a non-injected event, a left- or neutral-shift key-down is
classified non-physical exactly when the armed phantom-shift flag applies
(no dual-state numpad key in pad_state) or the prior event was a dual-state
numpad key-up less than 22 ms before; every other non-injected event is
physical; and when the phantom-flag branch applies, the flag is consumed. -/
theorem c1_shift_classifier (s : HookState) (e : Event)
    (hinj : e.injected = false) :
    ((EventIsPhysical s e).1 = false ↔
      ((e.vk = VK_LSHIFT ∨ e.vk = VK_SHIFT) ∧ e.keyUp = false ∧
        ((s.nextPhantom = true ∧ DualStateNumpadKeyIsDown s = false) ∨
         (s.priorKeyUp = true ∧
          IsDualStateNumpadKey s.priorVk s.priorSc = true ∧
          tickDiff e.tick s.priorTick < SHIFT_KEY_WORKAROUND_TIMEOUT)))) ∧
    ((e.vk = VK_LSHIFT ∨ e.vk = VK_SHIFT) → e.keyUp = false →
      s.nextPhantom = true → DualStateNumpadKeyIsDown s = false →
      (EventIsPhysical s e).2.nextPhantom = false) := by
  constructor
  · unfold EventIsPhysical
    (repeat' split) <;>
      simp_all [Bool.or_eq_true, beq_iff_eq, Bool.and_eq_true,
        Bool.not_eq_true', decide_eq_true_eq]
  · intro hvk hku hnp hnd
    unfold EventIsPhysical
    have hc1 : ((e.vk == VK_LSHIFT || e.vk == VK_SHIFT) && !e.keyUp) = true := by
      rcases hvk with h | h <;> simp [h, hku]
    have hc2 : (s.nextPhantom && !DualStateNumpadKeyIsDown s) = true := by
      simp [hnp, hnd]
    simp [hinj, hc1, hc2]

/-- C1 witness: with the phantom flag armed and an empty pad_state, a
left-shift key-down is classified non-physical and the flag is consumed. -/
theorem c1_shift_classifier_witness :
    c1e.injected = false ∧
    (EventIsPhysical c1s c1e).1 = false ∧
    (EventIsPhysical c1s c1e).2.nextPhantom = false := by
  refine ⟨rfl, ?_, ?_⟩
  · exact (c1_shift_classifier c1s c1e rfl).1.mpr
      ⟨Or.inl rfl, rfl, Or.inl ⟨rfl, by decide⟩⟩
  · exact (c1_shift_classifier c1s c1e rfl).2 (Or.inl rfl) rfl rfl (by decide)

/-- C4: a non-ignored WIN or ALT key-up arriving while its disguise flag is
armed is suppressed, clears that flag, and emits exactly SHIFT down, that
key's up, SHIFT up in that order. -/
theorem c4_win_alt_up_disguise (cfg : Cfg) (s0 : HookState) (e : Event)
    (hig : e.ignored = false) (hup : e.keyUp = true)
    (harm : (e.vk = VK_LWIN ∧ s0.dgLwin = true) ∨
            (e.vk = VK_RWIN ∧ s0.dgRwin = true) ∨
            ((e.vk = VK_LMENU ∨ e.vk = VK_MENU) ∧ s0.dgLalt = true) ∨
            (e.vk = VK_RMENU ∧ s0.dgRalt = true)) :
    (LowLevelKeybdProc cfg s0 e).2 = Verdict.suppress ∧
    (LowLevelKeybdProc cfg s0 e).1.emissions =
      s0.emissions ++
        [{ kind := EmitKind.keyDown, vk := VK_SHIFT, sc := 0, ignoreTag := true },
         { kind := EmitKind.keyUp, vk := e.vk, sc := scNormalize cfg e,
           ignoreTag := true },
         { kind := EmitKind.keyUp, vk := VK_SHIFT, sc := 0, ignoreTag := true }] ∧
    (e.vk = VK_LWIN → (LowLevelKeybdProc cfg s0 e).1.dgLwin = false) ∧
    (e.vk = VK_RWIN → (LowLevelKeybdProc cfg s0 e).1.dgRwin = false) ∧
    ((e.vk = VK_LMENU ∨ e.vk = VK_MENU) →
      (LowLevelKeybdProc cfg s0 e).1.dgLalt = false) ∧
    (e.vk = VK_RMENU → (LowLevelKeybdProc cfg s0 e).1.dgRalt = false) := by
  unfold LowLevelKeybdProc
  dsimp only
  simp only [hig, Bool.false_eq_true, if_false]
  have hcond : (e.keyUp &&
      (((physKeyStep cfg (altTabVisibleStep (padStateStep s0 e (scNormalize cfg e)) e) e).dgLwin && e.vk == VK_LWIN) ||
       ((physKeyStep cfg (altTabVisibleStep (padStateStep s0 e (scNormalize cfg e)) e) e).dgRwin && e.vk == VK_RWIN) ||
       ((physKeyStep cfg (altTabVisibleStep (padStateStep s0 e (scNormalize cfg e)) e) e).dgLalt && (e.vk == VK_LMENU || e.vk == VK_MENU)) ||
       ((physKeyStep cfg (altTabVisibleStep (padStateStep s0 e (scNormalize cfg e)) e) e).dgRalt && e.vk == VK_RMENU))) = true := by
    rcases harm with ⟨hvk, hf⟩ | ⟨hvk, hf⟩ | ⟨hvk, hf⟩ | ⟨hvk, hf⟩
    · simp [hup, hvk, hf]
    · simp [hup, hvk, hf]
    · rcases hvk with hvk | hvk <;> simp [hup, hvk, hf]
    · simp [hup, hvk, hf]
  rw [hcond]
  simp only [eq_self_iff_true, if_true]
  have hem : (physKeyStep cfg (altTabVisibleStep
      (padStateStep s0 e (scNormalize cfg e)) e) e).emissions = s0.emissions := by
    simp
  refine ⟨by simp, ?_, ?_, ?_, ?_, ?_⟩
  · rw [disguiseBlock_emissions cfg _ (scNormalize cfg e) e hup, hem]
  · intro hvk
    have h := disguiseBlock_clear_lwin cfg
      (physKeyStep cfg (altTabVisibleStep (padStateStep s0 e (scNormalize cfg e)) e) e)
      (scNormalize cfg e) e hvk
    exact h
  · intro hvk
    exact disguiseBlock_clear_rwin cfg
      (physKeyStep cfg (altTabVisibleStep (padStateStep s0 e (scNormalize cfg e)) e) e)
      (scNormalize cfg e) e hvk
  · intro hvk
    exact disguiseBlock_clear_lalt cfg
      (physKeyStep cfg (altTabVisibleStep (padStateStep s0 e (scNormalize cfg e)) e) e)
      (scNormalize cfg e) e hvk
  · intro hvk
    exact disguiseBlock_clear_ralt cfg
      (physKeyStep cfg (altTabVisibleStep (padStateStep s0 e (scNormalize cfg e)) e) e)
      (scNormalize cfg e) e hvk

/-- C4 witness: an armed LWIN key-up under the base configuration. -/
theorem c4_win_alt_up_disguise_witness :
    (c4e.ignored = false ∧ c4e.keyUp = true ∧ c4s.dgLwin = true) ∧
    ((LowLevelKeybdProc baseCfg c4s c4e).2 = Verdict.suppress ∧
     (LowLevelKeybdProc baseCfg c4s c4e).1.emissions =
       c4s.emissions ++
         [{ kind := EmitKind.keyDown, vk := VK_SHIFT, sc := 0, ignoreTag := true },
          { kind := EmitKind.keyUp, vk := c4e.vk, sc := scNormalize baseCfg c4e,
            ignoreTag := true },
          { kind := EmitKind.keyUp, vk := VK_SHIFT, sc := 0, ignoreTag := true }] ∧
     (c4e.vk = VK_LWIN → (LowLevelKeybdProc baseCfg c4s c4e).1.dgLwin = false) ∧
     (c4e.vk = VK_RWIN → (LowLevelKeybdProc baseCfg c4s c4e).1.dgRwin = false) ∧
     ((c4e.vk = VK_LMENU ∨ c4e.vk = VK_MENU) →
       (LowLevelKeybdProc baseCfg c4s c4e).1.dgLalt = false) ∧
     (c4e.vk = VK_RMENU →
       (LowLevelKeybdProc baseCfg c4s c4e).1.dgRalt = false)) :=
  ⟨⟨rfl, rfl, rfl⟩,
    c4_win_alt_up_disguise baseCfg c4s c4e rfl rfl (Or.inl ⟨rfl, rfl⟩)⟩

/-- C2 (amended): for a non-ignored key-down of a key configured as a
prefix, which is NOT already the active prefix (the auto-repeat
short-circuit), under the Case-1 guard (no prefix active or this key is not
also a suffix) and with the allow path's own force-toggle gate not firing,
the dispatcher installs this key as the active prefix, resets its
was_just_used to Unused, and passes the event through if and only if the
key is a modifier or a toggle key whose force-toggle state is NEUTRAL. -/
theorem c2_case1_install (cfg : Cfg) (s : HookState) (sc : Nat) (e : Event)
    (et : EvType) (tk : KeyRef)
    (htk : tk = hookThisKey cfg sc e.vk)
    (hdn : e.keyUp = false)
    (hpfx : (keyCfgOf cfg tk).usedAsPrefixKey = true)
    (hguard : s.pPrefixKey = none ∨ (keyCfgOf cfg tk).usedAsSuffix = false)
    (hrep : s.pPrefixKey ≠ some tk)
    (hig : e.ignored = false)
    (hgate : toggleBlocks cfg (cfg.kvkCfg e.vk) = false) :
    (dispatchMain cfg s sc e et).1.pPrefixKey = some tk ∧
    (keyRtOf (dispatchMain cfg s sc e et).1 tk).wasJustUsed = 0 ∧
    ((dispatchMain cfg s sc e et).2 = Verdict.pass ↔
      ((keyCfgOf cfg tk).asModifiersLR ≠ 0 ∨
       toggleIsNeutral cfg (keyCfgOf cfg tk) = true)) := by
  subst htk
  unfold dispatchMain
  dsimp only
  split
  · rename_i hc
    simp [hrep] at hc
  · split
    · rename_i hc
      simp [hpfx] at hc
    · unfold dispatchCases
      split
      · split
        · rename_i hc
          refine ⟨by simp, by simp, ?_⟩
          rw [allowIt_pass cfg _ sc e et (Or.inr hgate)]
          exact iff_of_true rfl (by simpa [Bool.or_eq_true, bne_iff_ne] using hc)
        · rename_i hc
          refine ⟨by simp, by simp, ?_⟩
          rw [stk_verdict]
          refine iff_of_false (by simp) ?_
          simp only [Bool.or_eq_true, bne_iff_ne, ne_eq] at hc
          tauto
      · rename_i hc
        exfalso
        apply hc
        rcases hguard with h | h <;> simp [hpfx, hdn, h]

/-- C2 witness: a fresh CapsLock key-down (CapsLock a pure prefix with a
NEUTRAL force-toggle, no prefix active) is installed and passes through. -/
theorem c2_case1_install_witness :
    (initState.pPrefixKey ≠ some (KeyRef.vk VK_CAPITAL) ∧
     (keyCfgOf c2cfg (KeyRef.vk VK_CAPITAL)).usedAsPrefixKey = true ∧
     toggleIsNeutral c2cfg (keyCfgOf c2cfg (KeyRef.vk VK_CAPITAL)) = true) ∧
    ((dispatchMain c2cfg initState 0 c2e EvType.blank).1.pPrefixKey =
       some (KeyRef.vk VK_CAPITAL) ∧
     (keyRtOf (dispatchMain c2cfg initState 0 c2e EvType.blank).1
       (KeyRef.vk VK_CAPITAL)).wasJustUsed = 0 ∧
     ((dispatchMain c2cfg initState 0 c2e EvType.blank).2 = Verdict.pass ↔
       ((keyCfgOf c2cfg (KeyRef.vk VK_CAPITAL)).asModifiersLR ≠ 0 ∨
        toggleIsNeutral c2cfg (keyCfgOf c2cfg (KeyRef.vk VK_CAPITAL)) = true))) :=
  ⟨⟨by decide, by decide, by decide⟩,
    c2_case1_install c2cfg initState 0 c2e EvType.blank (KeyRef.vk VK_CAPITAL)
      rfl rfl (by decide) (Or.inl rfl) (by decide) rfl (by decide)⟩

/-- C2 counterexample to the literal claim: on an auto-repeated key-down of
CapsLock while CapsLock itself is the active prefix (so no OTHER prefix is
active, and CapsLock is not also a suffix), the dispatcher does not reset
was_just_used (it stays AS_PREFIX) and suppresses even though CapsLock's
force-toggle is NEUTRAL and the claim promises pass-through. -/
theorem c2_case1_repeat_counterexample :
    c2e.keyUp = false ∧
    (keyCfgOf c2cfg (KeyRef.vk VK_CAPITAL)).usedAsPrefixKey = true ∧
    (keyCfgOf c2cfg (KeyRef.vk VK_CAPITAL)).usedAsSuffix = false ∧
    c2sRepeat.pPrefixKey = some (KeyRef.vk VK_CAPITAL) ∧
    toggleIsNeutral c2cfg (keyCfgOf c2cfg (KeyRef.vk VK_CAPITAL)) = true ∧
    (LowLevelKeybdProc c2cfg c2sRepeat c2e).2 = Verdict.suppress ∧
    (keyRtOf (LowLevelKeybdProc c2cfg c2sRepeat c2e).1
      (KeyRef.vk VK_CAPITAL)).wasJustUsed = AS_PREFIX :=
  ⟨rfl, rfl, rfl, rfl, rfl, rfl, rfl⟩

/-- C3 (amended): whenever one hook invocation changes the occupied prefix
slot from one key's record to a different key's record, the new prefix is
either the invocation's own key and then not also configured as a suffix
(Case 1's guard), or it was installed by Case 4's ModifierVK/ModifierSC
binding of the suffix being processed — and that exception can name a key
that IS also a suffix. -/
theorem c3_prefix_change_amended (cfg : Cfg) (s0 : HookState) (e : Event)
    (p q : KeyRef)
    (hp : s0.pPrefixKey = some p)
    (hq : (LowLevelKeybdProc cfg s0 e).1.pPrefixKey = some q)
    (hne : q ≠ p) :
    (q = hookThisKey cfg (scNormalize cfg e) e.vk ∧
      (keyCfgOf cfg q).usedAsSuffix = false) ∨
    (∃ a idf, q = KeyRef.vk a ∧
      (a, idf) ∈ (keyCfgOf cfg
        (hookThisKey cfg (scNormalize cfg e) e.vk)).modifierVK) ∨
    (∃ c idf, q = KeyRef.sc c ∧
      (c, idf) ∈ (keyCfgOf cfg
        (hookThisKey cfg (scNormalize cfg e) e.vk)).modifierSC) := by
  rcases llkp_pPrefixKey cfg s0 e with
    h | h | ⟨h1, h2⟩ | ⟨a, idf, hm, h⟩ | ⟨c, idf, hm, h⟩
  · rw [hq, hp] at h
    exact absurd (Option.some.inj h) hne
  · rw [hq] at h
    exact absurd h (by simp)
  · rw [hq] at h1
    have hqt := Option.some.inj h1
    rcases h2 with h2 | h2
    · rw [hp] at h2
      exact absurd h2 (by simp)
    · exact Or.inl ⟨hqt, hqt ▸ h2⟩
  · rw [hq] at h
    exact Or.inr (Or.inl ⟨a, idf, Option.some.inj h, hm⟩)
  · rw [hq] at h
    exact Or.inr (Or.inr ⟨c, idf, Option.some.inj h, hm⟩)

/-- C3 witness: in the three-key scenario, the `b down` event moves the
prefix slot from x's record to y's record via b's ModifierVK binding. -/
theorem c3_prefix_change_amended_witness :
    (c3s2.pPrefixKey = some (KeyRef.vk 65) ∧
     (LowLevelKeybdProc c3cfg c3s2 c3e3).1.pPrefixKey = some (KeyRef.vk 66)) ∧
    ((KeyRef.vk 66 = hookThisKey c3cfg (scNormalize c3cfg c3e3) c3e3.vk ∧
        (keyCfgOf c3cfg (KeyRef.vk 66)).usedAsSuffix = false) ∨
     (∃ a idf, KeyRef.vk 66 = KeyRef.vk a ∧
        (a, idf) ∈ (keyCfgOf c3cfg
          (hookThisKey c3cfg (scNormalize c3cfg c3e3) c3e3.vk)).modifierVK) ∨
     (∃ c idf, KeyRef.vk 66 = KeyRef.sc c ∧
        (c, idf) ∈ (keyCfgOf c3cfg
          (hookThisKey c3cfg (scNormalize c3cfg c3e3) c3e3.vk)).modifierSC)) :=
  ⟨⟨rfl, rfl⟩,
    c3_prefix_change_amended c3cfg c3s2 c3e3 (KeyRef.vk 65) (KeyRef.vk 66)
      rfl rfl (by decide)⟩

/-- C3 counterexample to the literal claim: after `x down, y down, b down`
the prefix slot changes from x's record (still held down) to y's record,
and y IS also configured as a suffix. -/
theorem c3_prefix_change_counterexample :
    c3s2.pPrefixKey = some (KeyRef.vk 65) ∧
    (keyRtOf c3s2 (KeyRef.vk 65)).isDown = true ∧
    c3s3.pPrefixKey = some (KeyRef.vk 66) ∧
    (keyRtOf c3s3 (KeyRef.vk 65)).isDown = true ∧
    (keyCfgOf c3cfg (KeyRef.vk 66)).usedAsSuffix = true :=
  ⟨rfl, rfl, rfl, rfl, rfl⟩

end AhkHook
